import Mathlib

/-!
# coderbot-cli: the test-run orchestration, embedded and verified

A shallow embedding of `internal/utils/codecrafters_client.go`
(`CreateTestRun`, `FetchTestRun`, `doFetchTestRun`, `FetchBuild`, `doFetchBuild`)
and `internal/utils/test_run_handler.go` (`HandleTestRun`, `streamLogs`).

Conventions of the embedding
* A Go `error` is `Option GoError`: `none` is `nil`, and the only observable of a
  non-nil error is its message.
* Go functions that perform I/O become functions `World → result × World`.
  The `World` records, in chronological order, every observable action
  (`Event`) and how many requests of each kind were made so far.
* Everything the network answers is read from an `Env`: the HTTP results, the
  outcome of `json.Unmarshal` on a body, and the content of a log stream.
  The `i`-th request of a kind made by the process gets the `i`-th answer.
* Durations are `time.Duration` values, i.e. nanoseconds, as natural numbers
  (the largest product formed is `100ms * 2^10`, far below `2^63`).
* Debug logging through zerolog writes nothing the claims talk about and is
  left out.
-/

namespace Coderbot

/-! ## Data model (codecrafters_client.go, lines 14-48) -/

/-- A non-nil Go error value; only its message is observable. -/
structure GoError where
  message : String
deriving DecidableEq, Repr

/-- A Go value of type error: none is nil. -/
abbrev Error := Option GoError

structure CreateTestRunResponse where
  ID : String
  PendingBuildID : String
  PendingBuildLogstreamURL : String
  LogstreamURL : String
  ErrorMessage : String
  IsError : Bool
deriving DecidableEq, Repr

structure FetchBuildStatusResponse where
  Status : String
  ErrorMessage : String
  IsError : Bool
deriving DecidableEq, Repr

structure FetchTestRunResponse where
  Status : String
  ErrorMessage : String
  IsError : Bool
deriving DecidableEq, Repr

/-- The Go zero value CreateTestRunResponse with every field empty. -/
def CreateTestRunResponse.zero : CreateTestRunResponse :=
  ⟨"", "", "", "", "", false⟩

/-- The Go zero value FetchBuildStatusResponse with every field empty. -/
def FetchBuildStatusResponse.zero : FetchBuildStatusResponse :=
  ⟨"", "", false⟩

/-- The Go zero value FetchTestRunResponse with every field empty. -/
def FetchTestRunResponse.zero : FetchTestRunResponse :=
  ⟨"", "", false⟩

structure CodecraftersClient where
  ServerUrl : String
deriving DecidableEq, Repr

def NewCodecraftersClient (serverUrl : String) : CodecraftersClient :=
  ⟨serverUrl⟩

/-! ## The outside world -/

/-- What grequests hands back for a completed HTTP exchange: the status code and the body. -/
structure HttpResponse where
  StatusCode : Int
  Body : String
deriving DecidableEq, Repr

/-- Modelled from the spec: the field Ok of a grequests response (library code,
not under src/); the spec calls it the 2xx range of status codes. -/
def HttpResponse.Ok (r : HttpResponse) : Bool :=
  decide (200 ≤ r.StatusCode) && decide (r.StatusCode < 300)

/-- The pair returned by grequests.Post / grequests.Get: a transport error or a response. -/
inductive HttpResult where
  | failed (err : GoError)
  | response (r : HttpResponse)
deriving DecidableEq, Repr

/-- What a log stream does when consumed: the consumer cannot be created, or
it yields bytes and then ends normally (none) or with a read error. -/
inductive LogStream where
  | openError (err : GoError)
  | data (bytes : String) (readErr : Error)
deriving DecidableEq, Repr

/-- Observable actions of the process, in the order they happen. -/
inductive Event where
  | httpPost (url autofixRequestId commitSha : String)
  | httpGet (url param : String)
  | newConsumer (logstreamURL : String)
  | stdout (text : String)
  | stderr (text : String)
  | sleep (nanoseconds : Nat)
  | captureException (err : GoError)
deriving DecidableEq, Repr

/-- Answers of the remote service and of the libraries that decode them. -/
structure Env where
  /-- Result of the POST to create_test_run. -/
  postCreateTestRun : String → String → String → HttpResult
  /-- Result of the i-th GET to fetch_test_run made by the process. -/
  getTestRun : String → String → Nat → HttpResult
  /-- Result of the i-th GET to fetch_test_runner_build made by the process. -/
  getBuild : String → String → Nat → HttpResult
  /-- Result of json.Unmarshal of a body into a CreateTestRunResponse. -/
  unmarshalCreateTestRun : String → Except GoError CreateTestRunResponse
  /-- Result of json.Unmarshal of a body into a FetchTestRunResponse. -/
  unmarshalTestRun : String → Except GoError FetchTestRunResponse
  /-- Result of json.Unmarshal of a body into a FetchBuildStatusResponse. -/
  unmarshalBuild : String → Except GoError FetchBuildStatusResponse
  /-- Behaviour of the i-th log stream opened by the process, given its URL. -/
  logstream : String → Nat → LogStream

/-- The state threaded through the program: the trace so far and request counters. -/
structure World where
  trace : List Event
  streams : Nat
  testRunFetches : Nat
  buildFetches : Nat
deriving DecidableEq, Repr

/-- The world at process start. -/
def World.init : World := ⟨[], 0, 0, 0⟩

/-- Append one event to the trace. -/
def emit (e : Event) (w : World) : World :=
  { w with trace := w.trace ++ [e] }

/-- Go's fmt.Println(s) on standard output. -/
def println (s : String) (w : World) : World :=
  emit (Event.stdout (s ++ "\n")) w

/-- Go's fmt.Fprintln(os.Stderr, s). -/
def eprintln (s : String) (w : World) : World :=
  emit (Event.stderr (s ++ "\n")) w

/-- Modelled from the spec: the red SprintFunc of fatih/color (library code, not
under src/); colour is a presentation detail, so the text is left as it is. -/
def red (s : String) : String := s

/-- Go's time.Millisecond and time.Second, in nanoseconds. -/
def Millisecond : Nat := 1000000

def Second : Nat := 1000 * Millisecond

/-! ## retry.Do (github.com/avast/retry-go), as configured by the two pollers -/

/-- The options both pollers pass: Attempts, Delay, MaxDelay
(DelayType is BackOffDelay and LastErrorOnly is true in both). -/
structure RetryConfig where
  attempts : Nat
  delay : Nat
  maxDelay : Nat
deriving DecidableEq, Repr

/-- Modelled from the spec: retry.BackOffDelay (library code, not under src/):
the delay starts at the initial delay and doubles with each attempt. -/
def BackOffDelay (n : Nat) (config : RetryConfig) : Nat :=
  config.delay * 2 ^ n

/-- Modelled from the spec: the wait retry.Do makes after failed attempt n
(library code, not under src/): the backoff delay capped at maxDelay. -/
def delayTime (config : RetryConfig) (n : Nat) : Nat :=
  if 0 < config.maxDelay ∧ config.maxDelay < BackOffDelay n config then config.maxDelay
  else BackOffDelay n config

/-- Modelled from the spec: the loop of retry.Do (library code, not under src/).
The first argument counts the attempts left, n is the index of the current
attempt, lastErr the error kept so far (LastErrorOnly). An attempt that returns
nil ends the loop with nil; a failed attempt is followed by a sleep and another
attempt, except the last one, after which the last error is returned. -/
def retryLoop {σ : Type} (config : RetryConfig) (sleep : Nat → σ → σ)
    (retryableFunc : σ → Error × σ) : Nat → Nat → Error → σ → Error × σ
  | 0, _, lastErr, s => (lastErr, s)
  | left + 1, n, _, s =>
    match retryableFunc s with
    | (none, s1) => (none, s1)
    | (some err, s1) =>
      if n = config.attempts - 1 then (some err, s1)
      else retryLoop config sleep retryableFunc left (n + 1) (some err)
        (sleep (delayTime config n) s1)

/-- Modelled from the spec: retry.Do (library code, not under src/) with
DelayType(BackOffDelay) and LastErrorOnly(true). -/
def retryDo {σ : Type} (config : RetryConfig) (sleep : Nat → σ → σ)
    (retryableFunc : σ → Error × σ) (s : σ) : Error × σ :=
  retryLoop config sleep retryableFunc config.attempts 0 none s

/-! ## codecrafters_client.go -/

/-- CreateTestRun, lines 56-87. -/
def CreateTestRun (env : Env) (c : CodecraftersClient) (autofixRequestId commitSha : String)
    (w : World) : (CreateTestRunResponse × Error) × World :=
  let url := c.ServerUrl ++ "/services/coderbot/create_test_run"
  let w1 := emit (Event.httpPost url autofixRequestId commitSha) w
  match env.postCreateTestRun url autofixRequestId commitSha with
  | HttpResult.failed err =>
    ((CreateTestRunResponse.zero, some err),
      emit (Event.stderr ("failed to create test run: " ++ err.message ++ "\n")) w1)
  | HttpResult.response response =>
    if !response.Ok && response.StatusCode ≠ 403 then
      ((CreateTestRunResponse.zero,
        some ⟨"failed to create test run. status code: " ++ toString response.StatusCode
          ++ ", body: " ++ response.Body⟩), w1)
    else
      match env.unmarshalCreateTestRun response.Body with
      | Except.error err =>
        ((CreateTestRunResponse.zero, some err),
          emit (Event.stderr ("failed to create test run: " ++ err.message ++ "\n")) w1)
      | Except.ok createTestRunResponse =>
        if createTestRunResponse.IsError then
          ((createTestRunResponse, some ⟨createTestRunResponse.ErrorMessage⟩), w1)
        else
          ((createTestRunResponse, none), w1)

/-- The value doFetchTestRun (lines 120-144) returns when it is the i-th
fetch_test_run request of the process. -/
def doFetchTestRunResult (env : Env) (c : CodecraftersClient) (testRunID : String) (i : Nat) :
    FetchTestRunResponse × Error :=
  match env.getTestRun (c.ServerUrl ++ "/services/coderbot/fetch_test_run") testRunID i with
  | HttpResult.failed err =>
    (FetchTestRunResponse.zero,
      some ⟨"failed to fetch test run result from CodeCrafters: " ++ err.message⟩)
  | HttpResult.response response =>
    if !response.Ok then
      (FetchTestRunResponse.zero,
        some ⟨"failed to fetch test run result from CodeCrafters. status code: "
          ++ toString response.StatusCode⟩)
    else
      match env.unmarshalTestRun response.Body with
      | Except.error err =>
        (FetchTestRunResponse.zero,
          some ⟨"failed to fetch test run result from CodeCrafters: " ++ err.message⟩)
      | Except.ok fetchTestRunResponse => (fetchTestRunResponse, none)

/-- doFetchTestRun, lines 120-144: one GET, recorded in the world. -/
def doFetchTestRun (env : Env) (c : CodecraftersClient) (testRunID : String) (w : World) :
    (FetchTestRunResponse × Error) × World :=
  (doFetchTestRunResult env c testRunID w.testRunFetches,
    { w with
      trace := w.trace ++
        [Event.httpGet (c.ServerUrl ++ "/services/coderbot/fetch_test_run") testRunID],
      testRunFetches := w.testRunFetches + 1 })

/-- The options of the retry.Do call in FetchTestRun, lines 106-110. -/
def testRunRetryConfig : RetryConfig :=
  ⟨5, 500 * Millisecond, 2 * Second⟩

/-- The closure passed to retry.Do in FetchTestRun, lines 93-105. Its state is
the captured variable fetchTestRunResponse together with the world. -/
def fetchTestRunAttempt (env : Env) (c : CodecraftersClient) (testRunID : String)
    (s : FetchTestRunResponse × World) : Error × (FetchTestRunResponse × World) :=
  match doFetchTestRun env c testRunID s.2 with
  | ((fetchTestRunResponse, some err), w1) => (some err, (fetchTestRunResponse, w1))
  | ((fetchTestRunResponse, none), w1) =>
    if fetchTestRunResponse.Status ≠ "failure" ∧ fetchTestRunResponse.Status ≠ "success" then
      (some ⟨"unexpected test run status: " ++ fetchTestRunResponse.Status⟩,
        (fetchTestRunResponse, w1))
    else
      (none, (fetchTestRunResponse, w1))

/-- The time.Sleep inside retry.Do, acting on the state of a poller. -/
def retrySleep {ρ : Type} (d : Nat) (s : ρ × World) : ρ × World :=
  (s.1, emit (Event.sleep d) s.2)

/-- FetchTestRun, lines 89-118. -/
def FetchTestRun (env : Env) (c : CodecraftersClient) (testRunID : String) (w : World) :
    (FetchTestRunResponse × Error) × World :=
  match retryDo testRunRetryConfig retrySleep (fetchTestRunAttempt env c testRunID)
      (FetchTestRunResponse.zero, w) with
  | (some err, (_, w1)) => ((FetchTestRunResponse.zero, some err), w1)
  | (none, (fetchTestRunResponse, w1)) => ((fetchTestRunResponse, none), w1)

/-- The value doFetchBuild (lines 181-205) returns when it is the i-th
fetch_test_runner_build request of the process. -/
def doFetchBuildResult (env : Env) (c : CodecraftersClient) (buildId : String) (i : Nat) :
    FetchBuildStatusResponse × Error :=
  match env.getBuild (c.ServerUrl ++ "/services/coderbot/fetch_test_runner_build") buildId i with
  | HttpResult.failed err =>
    (FetchBuildStatusResponse.zero,
      some ⟨"failed to fetch build result from CodeCrafters: " ++ err.message⟩)
  | HttpResult.response response =>
    if !response.Ok then
      (FetchBuildStatusResponse.zero,
        some ⟨"failed to fetch build result from CodeCrafters. status code: "
          ++ toString response.StatusCode⟩)
    else
      match env.unmarshalBuild response.Body with
      | Except.error err =>
        (FetchBuildStatusResponse.zero,
          some ⟨"failed to fetch build result from CodeCrafters: " ++ err.message⟩)
      | Except.ok fetchBuildResponse => (fetchBuildResponse, none)

/-- doFetchBuild, lines 181-205: one GET, recorded in the world. -/
def doFetchBuild (env : Env) (c : CodecraftersClient) (buildId : String) (w : World) :
    (FetchBuildStatusResponse × Error) × World :=
  (doFetchBuildResult env c buildId w.buildFetches,
    { w with
      trace := w.trace ++
        [Event.httpGet (c.ServerUrl ++ "/services/coderbot/fetch_test_runner_build") buildId],
      buildFetches := w.buildFetches + 1 })

/-- The options of the retry.Do call in FetchBuild, lines 163-167. -/
def buildRetryConfig : RetryConfig :=
  ⟨11, 100 * Millisecond, 2 * Second⟩

/-- The closure passed to retry.Do in FetchBuild, lines 150-162. Its state is
the captured variable fetchBuildResponse together with the world. -/
def fetchBuildAttempt (env : Env) (c : CodecraftersClient) (buildId : String)
    (s : FetchBuildStatusResponse × World) : Error × (FetchBuildStatusResponse × World) :=
  match doFetchBuild env c buildId s.2 with
  | ((fetchBuildResponse, some err), w1) => (some err, (fetchBuildResponse, w1))
  | ((fetchBuildResponse, none), w1) =>
    if fetchBuildResponse.Status ≠ "failure" ∧ fetchBuildResponse.Status ≠ "success" then
      (some ⟨"unexpected build status: " ++ fetchBuildResponse.Status⟩,
        (fetchBuildResponse, w1))
    else
      (none, (fetchBuildResponse, w1))

/-- FetchBuild, lines 146-179. -/
def FetchBuild (env : Env) (c : CodecraftersClient) (buildId : String) (w : World) :
    (FetchBuildStatusResponse × Error) × World :=
  match retryDo buildRetryConfig retrySleep (fetchBuildAttempt env c buildId)
      (FetchBuildStatusResponse.zero, w) with
  | (some err, (fetchBuildResponse, w1)) =>
    if fetchBuildResponse.Status ≠ "failure" ∧ fetchBuildResponse.Status ≠ "success" then
      ((FetchBuildStatusResponse.zero, some err), emit (Event.captureException err) w1)
    else
      ((FetchBuildStatusResponse.zero, some err), w1)
  | (none, (fetchBuildResponse, w1)) => ((fetchBuildResponse, none), w1)

/-! ## test_run_handler.go -/

/-- streamLogs, lines 105-117. -/
def streamLogs (env : Env) (logstreamURL : String) (w : World) : Error × World :=
  let w1 : World :=
    { w with trace := w.trace ++ [Event.newConsumer logstreamURL], streams := w.streams + 1 }
  match env.logstream logstreamURL w.streams with
  | LogStream.openError err => (some ⟨"new log consumer: " ++ err.message⟩, w1)
  | LogStream.data bytes (some err) =>
    (some ⟨"stream data: " ++ err.message⟩, emit (Event.stdout bytes) w1)
  | LogStream.data bytes none => (none, emit (Event.stdout bytes) w1)

/-- How a call of HandleTestRun ends: it returns an error value to its caller,
or it ends the process itself through os.Exit. -/
inductive Outcome where
  | returned (err : Error)
  | exited (code : Int)
deriving DecidableEq, Repr

/-- HandleTestRun, lines 19-61: the build phase. The result is none when
control falls through to line 63, and the way the call ended otherwise. -/
def buildPhase (env : Env) (c : CodecraftersClient) (createTestRunResponse : CreateTestRunResponse)
    (w : World) : Option Outcome × World :=
  if createTestRunResponse.PendingBuildLogstreamURL ≠ "" then
    match streamLogs env createTestRunResponse.PendingBuildLogstreamURL (println "" w) with
    | (some err, w1) =>
      (some (Outcome.returned (some ⟨"stream build logs: " ++ err.message⟩)), w1)
    | (none, w1) =>
      match FetchBuild env c createTestRunResponse.PendingBuildID w1 with
      | ((_, some err), w2) =>
        (some (Outcome.returned (some err)),
          eprintln (red "Let us know at hello@codecrafters.io if this error persists.")
            (eprintln (red "We couldn't fetch the results of your test run. Please try again?")
              (eprintln "" (eprintln (red err.message) w2))))
      | ((fetchBuildResponse, none), w2) =>
        if fetchBuildResponse.Status = "failure" then
          (some (Outcome.exited 0),
            eprintln (red "")
              (eprintln (red "If you think this is a CodeCrafters error, please let us know at hello@codecrafters.io.")
                (eprintln (red "Looks like your codebase failed to build.")
                  (eprintln (red "") w2))))
        else if fetchBuildResponse.Status = "success" then
          (none, emit (Event.sleep (1 * Second)) w2)
        else
          (some (Outcome.exited 1),
            eprintln (red "Let us know at hello@codecrafters.io if this error persists.")
              (eprintln (red "We couldn't fetch the results of your build. Please try again?") w2))
  else
    (none, w)

/-- HandleTestRun, lines 63-65: the three lines printed before the test logs. -/
def testBanner (w : World) : World :=
  println "" (println "Running tests. Logs should appear shortly..." (println "" w))

/-- HandleTestRun, lines 63-102: the test phase. -/
def testPhase (env : Env) (c : CodecraftersClient) (createTestRunResponse : CreateTestRunResponse)
    (w : World) : Outcome × World :=
  match streamLogs env createTestRunResponse.LogstreamURL (testBanner w) with
  | (some err, w1) => (Outcome.returned (some ⟨"stream logs: " ++ err.message⟩), w1)
  | (none, w1) =>
    match FetchTestRun env c createTestRunResponse.ID w1 with
    | ((_, some err), w2) =>
      (Outcome.returned (some err),
        eprintln (red "Let us know at hello@codecrafters.io if this error persists.")
          (eprintln (red "We couldn't fetch the results of your test run. Please try again?")
            (eprintln "" (eprintln (red err.message) w2))))
    | ((fetchTestRunResponse, none), w2) =>
      let w3 :=
        if fetchTestRunResponse.Status = "failure" then println "Tests failed" (println "" w2)
        else if fetchTestRunResponse.Status = "success" then println "Tests passed!" (println "" w2)
        else println "" w2
      if fetchTestRunResponse.IsError then
        (Outcome.returned (some ⟨fetchTestRunResponse.ErrorMessage⟩), w3)
      else
        (Outcome.returned none, w3)

/-- HandleTestRun, lines 16-103: the build phase, then, unless it ended the
call, the test phase. -/
def HandleTestRun (createTestRunResponse : CreateTestRunResponse) (env : Env)
    (codecraftersClient : CodecraftersClient) (w : World) : Outcome × World :=
  match buildPhase env codecraftersClient createTestRunResponse w with
  | (some outcome, w1) => (outcome, w1)
  | (none, w1) => testPhase env codecraftersClient createTestRunResponse w1


/-! ## Observations on traces -/

/-- The URLs handed to logstream_redis.NewConsumer, in order. -/
def streamCalls (t : List Event) : List String :=
  t.filterMap fun e => match e with
    | Event.newConsumer u => some u
    | _ => none

/-- The errors handed to sentry.CaptureException, in order. -/
def captures (t : List Event) : List GoError :=
  t.filterMap fun e => match e with
    | Event.captureException err => some err
    | _ => none

/-- The total time slept, in nanoseconds. -/
def totalSleep (t : List Event) : Nat :=
  (t.map fun e => match e with
    | Event.sleep d => d
    | _ => 0).sum

/-- An event a poller produces while retrying: a GET or a sleep. -/
def Event.isPoll : Event → Bool
  | Event.httpGet _ _ => true
  | Event.sleep _ => true
  | _ => false

/-- A status after which polling stops. -/
def Terminal (status : String) : Prop :=
  status = "success" ∨ status = "failure"

instance (status : String) : Decidable (Terminal status) := by
  unfold Terminal; infer_instance

/-- A single-shot run-status result the poller retries: an error, or a status that is not terminal. -/
def TestRunRetryable (r : FetchTestRunResponse × Error) : Prop :=
  r.2 ≠ none ∨ ¬ Terminal r.1.Status

/-- A single-shot build-status result the poller retries: an error, or a status that is not terminal. -/
def BuildRetryable (r : FetchBuildStatusResponse × Error) : Prop :=
  r.2 ≠ none ∨ ¬ Terminal r.1.Status

/-- The error the run-status closure returns for a retryable single-shot result. -/
def testRunAttemptError (r : FetchTestRunResponse × Error) : GoError :=
  match r.2 with
  | some err => err
  | none => ⟨"unexpected test run status: " ++ r.1.Status⟩

/-- The error the build-status closure returns for a retryable single-shot result. -/
def buildAttemptError (r : FetchBuildStatusResponse × Error) : GoError :=
  match r.2 with
  | some err => err
  | none => ⟨"unexpected build status: " ++ r.1.Status⟩

/-- The events of k failed attempts, the first with index n: each a GET followed by its wait. -/
def failedAttempts (config : RetryConfig) (url param : String) : Nat → Nat → List Event
  | _, 0 => []
  | n, k + 1 =>
    Event.httpGet url param :: Event.sleep (delayTime config n) ::
      failedAttempts config url param (n + 1) k

instance (r : FetchTestRunResponse × Error) : Decidable (TestRunRetryable r) := by
  unfold TestRunRetryable; infer_instance

instance (r : FetchBuildStatusResponse × Error) : Decidable (BuildRetryable r) := by
  unfold BuildRetryable; infer_instance

/-- The URL of the run-status endpoint. -/
def testRunUrl (c : CodecraftersClient) : String :=
  c.ServerUrl ++ "/services/coderbot/fetch_test_run"

/-- The URL of the build-status endpoint. -/
def buildUrl (c : CodecraftersClient) : String :=
  c.ServerUrl ++ "/services/coderbot/fetch_test_runner_build"

/-- The world w1 extends w by retry events only. -/
def PollExtends (w w1 : World) : Prop :=
  ∃ evs, w1.trace = w.trace ++ evs ∧ (∀ e ∈ evs, Event.isPoll e = true) ∧
    w1.streams = w.streams

/-! ## Concrete scenarios

Environments in which the service answers from a script: the i-th request of a
kind gets the i-th scripted answer, and a connection error once the script is
over. Bodies are JSON texts; the decoders know the payloads the scripts use. -/

/-- JSON text of a status payload. -/
def statusJson (status errorMessage : String) (isError : Bool) : String :=
  "\x7b\"status\":\"" ++ status ++ "\",\"error_message\":\"" ++ errorMessage
    ++ "\",\"is_error\":" ++ (if isError then "true" else "false") ++ "\x7d"

/-- JSON text of a create-run payload. -/
def createJson (r : CreateTestRunResponse) : String :=
  "\x7b\"id\":\"" ++ r.ID ++ "\",\"pending_build_id\":\"" ++ r.PendingBuildID
    ++ "\",\"pending_build_logstream_url\":\"" ++ r.PendingBuildLogstreamURL
    ++ "\",\"logstream_url\":\"" ++ r.LogstreamURL
    ++ "\",\"error_message\":\"" ++ r.ErrorMessage
    ++ "\",\"is_error\":" ++ (if r.IsError then "true" else "false") ++ "\x7d"

/-- A 200 response carrying a status payload. -/
def okStatus (status errorMessage : String) (isError : Bool) : HttpResult :=
  HttpResult.response ⟨200, statusJson status errorMessage isError⟩

/-- A decoder that maps the JSON text of each listed payload back to the payload
and rejects every other body. -/
def decodeWith {ρ : Type} (render : ρ → String) (known : List ρ) (body : String) :
    Except GoError ρ :=
  match known.find? (fun r => render r == body) with
  | some r => Except.ok r
  | none => Except.error ⟨"unexpected end of JSON input"⟩

/-- The status payloads the scripts use. -/
def scriptedStatuses : List (String × String × Bool) :=
  [("success", "", false), ("failure", "", false), ("pending", "", false),
   ("queued", "", false), ("pending", "denied", true), ("success", "denied", true),
   ("failure", "denied", true)]

/-- A membership error, as the service sends it with status code 403. -/
def deniedRun : CreateTestRunResponse :=
  ⟨"", "", "", "", "Your membership has expired", true⟩

/-- A created test run that waits on no build. -/
def plainRun : CreateTestRunResponse :=
  ⟨"T1", "", "", "LT", "", false⟩

/-- A created test run that waits on build B1. -/
def buildRun : CreateTestRunResponse :=
  ⟨"T1", "B1", "LB", "LT", "", false⟩

/-- A created test run with a build log stream but an empty build id. -/
def buildRunWithoutId : CreateTestRunResponse :=
  ⟨"T1", "", "LB", "LT", "", false⟩

/-- A created test run with a build id but no build log stream. -/
def buildRunWithoutLogstream : CreateTestRunResponse :=
  ⟨"T1", "B1", "", "LT", "", false⟩

/-- The scripted environment. -/
def scriptEnv (create : HttpResult) (builds tests : List HttpResult)
    (streams : List LogStream) : Env where
  postCreateTestRun := fun _ _ _ => create
  getTestRun := fun _ _ i => tests.getD i (HttpResult.failed ⟨"connection refused"⟩)
  getBuild := fun _ _ i => builds.getD i (HttpResult.failed ⟨"connection refused"⟩)
  unmarshalCreateTestRun := decodeWith createJson [deniedRun, plainRun, buildRun]
  unmarshalTestRun := decodeWith (fun r => statusJson r.Status r.ErrorMessage r.IsError)
    (scriptedStatuses.map fun p => ⟨p.1, p.2.1, p.2.2⟩)
  unmarshalBuild := decodeWith (fun r => statusJson r.Status r.ErrorMessage r.IsError)
    (scriptedStatuses.map fun p => ⟨p.1, p.2.1, p.2.2⟩)
  logstream := fun _ i => streams.getD i (LogStream.data "" none)

/-- The client used in the scenarios. -/
def demoClient : CodecraftersClient :=
  NewCodecraftersClient "https://backend.codecrafters.io"

/-- No create-run request is answered. -/
def noCreate : HttpResult :=
  HttpResult.failed ⟨"connection refused"⟩

/-- The build succeeds at once, the tests pass at once. -/
def envAllGreen : Env :=
  scriptEnv noCreate [okStatus "success" "" false] [okStatus "success" "" false] []

/-- The run status is not terminal twice, then success; the build status is not
terminal three times, then success. -/
def envSlowSuccess : Env :=
  scriptEnv noCreate
    [okStatus "queued" "" false, okStatus "pending" "" false, okStatus "pending" "" false,
      okStatus "success" "" false]
    [okStatus "pending" "" false, okStatus "pending" "" false, okStatus "success" "" false] []

/-- Neither status ever becomes terminal; the last answers are a 502 for the run
and the status queued for the build. -/
def envNeverTerminal : Env :=
  scriptEnv noCreate
    ((List.replicate 10 (okStatus "pending" "" false)) ++ [okStatus "queued" "" false])
    ((List.replicate 4 (okStatus "pending" "" false)) ++ [HttpResult.response ⟨502, ""⟩]) []

/-- As envNeverTerminal, with other answers before the last one. -/
def envNeverTerminalOther : Env :=
  scriptEnv noCreate
    ((List.replicate 10 (HttpResult.failed ⟨"timeout"⟩)) ++ [okStatus "queued" "" false])
    ((List.replicate 4 (okStatus "queued" "" false)) ++ [HttpResult.response ⟨502, ""⟩]) []

/-- The build fails. -/
def envBuildFails : Env :=
  scriptEnv noCreate [okStatus "failure" "" false] [okStatus "success" "" false] []

/-- The tests pass, but the run-status payload carries an error. -/
def envRunStatusError : Env :=
  scriptEnv noCreate [] [okStatus "success" "denied" true] []

/-- A payload with is_error and a status that is not terminal, followed by success. -/
def envErrorThenSuccess : Env :=
  scriptEnv noCreate
    [okStatus "pending" "denied" true, okStatus "success" "" false]
    [okStatus "pending" "denied" true, okStatus "success" "" false] []

/-- One status that is not terminal, then a terminal payload with is_error. -/
def envPendingThenError : Env :=
  scriptEnv noCreate
    [okStatus "pending" "" false, okStatus "failure" "denied" true]
    [okStatus "pending" "" false, okStatus "success" "denied" true] []

/-- The run status stays pending for all five attempts. -/
def envRunPending : Env :=
  scriptEnv noCreate [] (List.replicate 5 (okStatus "pending" "" false)) []

/-- The service rejects the create-run request with status code 403 and a JSON body. -/
def envCreateDenied : Env :=
  scriptEnv (HttpResult.response ⟨403, createJson deniedRun⟩) [] [] []

/-! ## The retry loop -/

theorem retryLoop_ok {σ : Type} (config : RetryConfig) (sleep : Nat → σ → σ)
    (f : σ → Error × σ) (left n : Nat) (lastErr : Error) (s s1 : σ)
    (h : f s = (none, s1)) :
    retryLoop config sleep f (left + 1) n lastErr s = (none, s1) := by
  simp [retryLoop, h]

theorem retryLoop_last_failed {σ : Type} (config : RetryConfig) (sleep : Nat → σ → σ)
    (f : σ → Error × σ) (left n : Nat) (lastErr : Error) (s s1 : σ) (err : GoError)
    (h : f s = (some err, s1)) (hn : n = config.attempts - 1) :
    retryLoop config sleep f (left + 1) n lastErr s = (some err, s1) := by
  simp [retryLoop, h, hn]

theorem retryLoop_failed {σ : Type} (config : RetryConfig) (sleep : Nat → σ → σ)
    (f : σ → Error × σ) (left n : Nat) (lastErr : Error) (s s1 : σ) (err : GoError)
    (h : f s = (some err, s1)) (hn : n ≠ config.attempts - 1) :
    retryLoop config sleep f (left + 1) n lastErr s =
      retryLoop config sleep f left (n + 1) (some err) (sleep (delayTime config n) s1) := by
  simp [retryLoop, h, hn]

/-- The loop ends with the result of one call of the closure, made in a state
reached from the start through calls and sleeps. -/
theorem retryLoop_last {σ : Type} (config : RetryConfig) (sleep : Nat → σ → σ)
    (f : σ → Error × σ) (P : σ → Prop)
    (hf : ∀ s, P s → P (f s).2) (hs : ∀ d s, P s → P (sleep d s)) :
    ∀ (left n : Nat) (lastErr : Error) (s : σ), 0 < left → left + n = config.attempts → P s →
      ∃ s0, P s0 ∧ f s0 = retryLoop config sleep f left n lastErr s := by
  intro left
  induction left with
  | zero => intro n lastErr s h; exact absurd h (Nat.lt_irrefl 0)
  | succ left ih =>
    intro n lastErr s _ hsum hP
    rcases hfs : f s with ⟨r, s1⟩
    cases r with
    | none => exact ⟨s, hP, by rw [retryLoop_ok config sleep f left n lastErr s s1 hfs, hfs]⟩
    | some err =>
      by_cases hn : n = config.attempts - 1
      · exact ⟨s, hP, by rw [retryLoop_last_failed config sleep f left n lastErr s s1 err hfs hn, hfs]⟩
      · rw [retryLoop_failed config sleep f left n lastErr s s1 err hfs hn]
        have hleft : 0 < left := by omega
        have hP1 : P s1 := by have := hf s hP; rw [hfs] at this; exact this
        exact ih (n + 1) (some err) _ hleft (by omega) (hs _ _ hP1)

/-- A property kept by the closure and by sleeping holds when the loop ends. -/
theorem retryLoop_inv {σ : Type} (config : RetryConfig) (sleep : Nat → σ → σ)
    (f : σ → Error × σ) (P : σ → Prop)
    (hf : ∀ s, P s → P (f s).2) (hs : ∀ d s, P s → P (sleep d s)) :
    ∀ (left n : Nat) (lastErr : Error) (s : σ), P s →
      P (retryLoop config sleep f left n lastErr s).2 := by
  intro left
  induction left with
  | zero => intro n lastErr s hP; simpa [retryLoop] using hP
  | succ left ih =>
    intro n lastErr s hP
    rcases hfs : f s with ⟨r, s1⟩
    have hP1 : P s1 := by have := hf s hP; rw [hfs] at this; exact this
    cases r with
    | none => rw [retryLoop_ok config sleep f left n lastErr s s1 hfs]; exact hP1
    | some err =>
      by_cases hn : n = config.attempts - 1
      · rw [retryLoop_last_failed config sleep f left n lastErr s s1 err hfs hn]; exact hP1
      · rw [retryLoop_failed config sleep f left n lastErr s s1 err hfs hn]
        exact ih (n + 1) (some err) _ (hs _ _ hP1)


/-! ## The run-status poller -/

theorem fetchTestRunAttempt_eq (env : Env) (c : CodecraftersClient) (id : String)
    (prev : FetchTestRunResponse) (w : World) :
    fetchTestRunAttempt env c id (prev, w) =
      (if TestRunRetryable (doFetchTestRunResult env c id w.testRunFetches)
        then some (testRunAttemptError (doFetchTestRunResult env c id w.testRunFetches))
        else none,
       ((doFetchTestRunResult env c id w.testRunFetches).1,
        { w with
          trace := w.trace ++ [Event.httpGet (testRunUrl c) id],
          testRunFetches := w.testRunFetches + 1 })) := by
  unfold fetchTestRunAttempt doFetchTestRun
  rcases hr : doFetchTestRunResult env c id w.testRunFetches with ⟨resp, err⟩
  cases err with
  | some e => simp [TestRunRetryable, testRunAttemptError, testRunUrl]
  | none =>
    by_cases ht : Terminal resp.Status
    · have ht2 : ¬ (resp.Status ≠ "failure" ∧ resp.Status ≠ "success") := by
        unfold Terminal at ht; rcases ht with h | h <;> simp [h]
      simp [TestRunRetryable, testRunAttemptError, testRunUrl, ht, ht2]
    · have ht2 : resp.Status ≠ "failure" ∧ resp.Status ≠ "success" := by
        unfold Terminal at ht; push_neg at ht; exact ⟨ht.2, ht.1⟩
      simp [TestRunRetryable, testRunAttemptError, testRunUrl, ht, ht2]

theorem testRun_failures (env : Env) (c : CodecraftersClient) (id : String) :
    ∀ (k left n : Nat) (lastErr : Error) (prev : FetchTestRunResponse) (w : World),
      n + k ≤ 4 →
      (∀ i, i < k → TestRunRetryable (doFetchTestRunResult env c id (w.testRunFetches + i))) →
      ∃ lastErr1 prev1,
        retryLoop testRunRetryConfig retrySleep (fetchTestRunAttempt env c id) (left + k) n lastErr
            (prev, w) =
          retryLoop testRunRetryConfig retrySleep (fetchTestRunAttempt env c id) left (n + k)
            lastErr1
            (prev1, { w with
              trace := w.trace ++ failedAttempts testRunRetryConfig (testRunUrl c) id n k,
              testRunFetches := w.testRunFetches + k }) := by
  intro k
  induction k with
  | zero =>
    intro left n lastErr prev w _ _
    exact ⟨lastErr, prev, by simp [failedAttempts]⟩
  | succ k ih =>
    intro left n lastErr prev w hn hall
    have h0 : TestRunRetryable (doFetchTestRunResult env c id w.testRunFetches) := by
      simpa using hall 0 (Nat.succ_pos k)
    have hstep := fetchTestRunAttempt_eq env c id prev w
    rw [if_pos h0] at hstep
    have hne : n ≠ testRunRetryConfig.attempts - 1 := by
      simp [testRunRetryConfig]; omega
    have hrw : left + (k + 1) = (left + k) + 1 := by omega
    rw [hrw, retryLoop_failed _ _ _ _ _ _ _ _ _ hstep hne]
    obtain ⟨e1, p1, h1⟩ := ih left (n + 1) (some (testRunAttemptError (doFetchTestRunResult env c id w.testRunFetches)))
      (doFetchTestRunResult env c id w.testRunFetches).1
      (emit (Event.sleep (delayTime testRunRetryConfig n))
        { w with
          trace := w.trace ++ [Event.httpGet (testRunUrl c) id],
          testRunFetches := w.testRunFetches + 1 })
      (by omega)
      (by
        intro i hi
        have := hall (i + 1) (by omega)
        simpa [emit, Nat.add_assoc, Nat.add_comm 1 i] using this)
    refine ⟨e1, p1, ?_⟩
    simp only [retrySleep]
    rw [h1]
    simp [emit, failedAttempts, Nat.add_assoc, Nat.add_comm 1 k]

theorem FetchTestRun_stops (env : Env) (c : CodecraftersClient) (id : String) (w : World)
    (k : Nat) (resp : FetchTestRunResponse) (hk : k < 5)
    (hall : ∀ i, i < k → TestRunRetryable (doFetchTestRunResult env c id (w.testRunFetches + i)))
    (hlast : doFetchTestRunResult env c id (w.testRunFetches + k) = (resp, none))
    (hterm : Terminal resp.Status) :
    FetchTestRun env c id w =
      ((resp, none),
        { w with
          trace := w.trace ++ failedAttempts testRunRetryConfig (testRunUrl c) id 0 k
            ++ [Event.httpGet (testRunUrl c) id],
          testRunFetches := w.testRunFetches + (k + 1) }) := by
  unfold FetchTestRun retryDo
  have hatt : testRunRetryConfig.attempts = (4 - k + 1) + k := by
    simp [testRunRetryConfig]; omega
  obtain ⟨e1, p1, h1⟩ := testRun_failures env c id k (4 - k + 1) 0 none
    FetchTestRunResponse.zero w (by omega) hall
  rw [hatt, h1]
  have hstep := fetchTestRunAttempt_eq env c id p1
    { w with
      trace := w.trace ++ failedAttempts testRunRetryConfig (testRunUrl c) id 0 k,
      testRunFetches := w.testRunFetches + k }
  simp only [hlast] at hstep
  have hnot : ¬ TestRunRetryable (resp, none) := by
    simp [TestRunRetryable, hterm]
  rw [if_neg hnot] at hstep
  rw [retryLoop_ok _ _ _ _ _ _ _ _ hstep]
  simp [Nat.add_assoc]

theorem FetchTestRun_exhausts (env : Env) (c : CodecraftersClient) (id : String) (w : World)
    (hall : ∀ i, i < 5 → TestRunRetryable (doFetchTestRunResult env c id (w.testRunFetches + i))) :
    FetchTestRun env c id w =
      ((FetchTestRunResponse.zero,
          some (testRunAttemptError (doFetchTestRunResult env c id (w.testRunFetches + 4)))),
        { w with
          trace := w.trace ++ failedAttempts testRunRetryConfig (testRunUrl c) id 0 4
            ++ [Event.httpGet (testRunUrl c) id],
          testRunFetches := w.testRunFetches + 5 }) := by
  unfold FetchTestRun retryDo
  have hatt : testRunRetryConfig.attempts = (0 + 1) + 4 := by
    simp [testRunRetryConfig]
  obtain ⟨e1, p1, h1⟩ := testRun_failures env c id 4 (0 + 1) 0 none
    FetchTestRunResponse.zero w (by omega) (fun i hi => hall i (by omega))
  rw [hatt, h1]
  have hstep := fetchTestRunAttempt_eq env c id p1
    { w with
      trace := w.trace ++ failedAttempts testRunRetryConfig (testRunUrl c) id 0 4,
      testRunFetches := w.testRunFetches + 4 }
  simp only [] at hstep
  rw [if_pos (hall 4 (by omega))] at hstep
  rw [retryLoop_last_failed _ _ _ _ _ _ _ _ _ hstep (by simp [testRunRetryConfig])]

theorem totalSleep_append (a b : List Event) :
    totalSleep (a ++ b) = totalSleep a + totalSleep b := by
  simp [totalSleep]

theorem totalSleep_failedAttempts (config : RetryConfig) (url param : String) :
    ∀ (k n : Nat), totalSleep (failedAttempts config url param n k) =
      ∑ i ∈ Finset.range k, delayTime config (n + i) := by
  intro k
  induction k with
  | zero => intro n; simp [failedAttempts, totalSleep]
  | succ k ih =>
    intro n
    have h := ih (n + 1)
    rw [Finset.sum_range_succ']
    simp only [failedAttempts, totalSleep, List.map_cons, List.sum_cons] at h ⊢
    rw [h]
    simp only [Nat.zero_add, Nat.add_zero]
    have hsum : ∑ i ∈ Finset.range k, delayTime config (n + 1 + i) =
        ∑ i ∈ Finset.range k, delayTime config (n + (i + 1)) :=
      Finset.sum_congr rfl (fun i _ => by rw [Nat.add_assoc, Nat.add_comm 1 i])
    rw [hsum]
    omega

theorem delayTime_eq_min (config : RetryConfig) (n : Nat) (h : 0 < config.maxDelay) :
    delayTime config n = min (config.delay * 2 ^ n) config.maxDelay := by
  unfold delayTime BackOffDelay
  by_cases hc : config.maxDelay < config.delay * 2 ^ n
  · rw [if_pos ⟨h, hc⟩]; omega
  · rw [if_neg (fun hh => hc hh.2)]; omega


/-! ## The build-status poller -/

theorem fetchBuildAttempt_eq (env : Env) (c : CodecraftersClient) (id : String)
    (prev : FetchBuildStatusResponse) (w : World) :
    fetchBuildAttempt env c id (prev, w) =
      (if BuildRetryable (doFetchBuildResult env c id w.buildFetches)
        then some (buildAttemptError (doFetchBuildResult env c id w.buildFetches))
        else none,
       ((doFetchBuildResult env c id w.buildFetches).1,
        { w with
          trace := w.trace ++ [Event.httpGet (buildUrl c) id],
          buildFetches := w.buildFetches + 1 })) := by
  unfold fetchBuildAttempt doFetchBuild
  rcases hr : doFetchBuildResult env c id w.buildFetches with ⟨resp, err⟩
  cases err with
  | some e => simp [BuildRetryable, buildAttemptError, buildUrl]
  | none =>
    by_cases ht : Terminal resp.Status
    · have ht2 : ¬ (resp.Status ≠ "failure" ∧ resp.Status ≠ "success") := by
        unfold Terminal at ht; rcases ht with h | h <;> simp [h]
      simp [BuildRetryable, buildAttemptError, buildUrl, ht, ht2]
    · have ht2 : resp.Status ≠ "failure" ∧ resp.Status ≠ "success" := by
        unfold Terminal at ht; push_neg at ht; exact ⟨ht.2, ht.1⟩
      simp [BuildRetryable, buildAttemptError, buildUrl, ht, ht2]

theorem build_failures (env : Env) (c : CodecraftersClient) (id : String) :
    ∀ (k left n : Nat) (lastErr : Error) (prev : FetchBuildStatusResponse) (w : World),
      n + k ≤ 10 →
      (∀ i, i < k → BuildRetryable (doFetchBuildResult env c id (w.buildFetches + i))) →
      ∃ lastErr1 prev1,
        retryLoop buildRetryConfig retrySleep (fetchBuildAttempt env c id) (left + k) n lastErr
            (prev, w) =
          retryLoop buildRetryConfig retrySleep (fetchBuildAttempt env c id) left (n + k)
            lastErr1
            (prev1, { w with
              trace := w.trace ++ failedAttempts buildRetryConfig (buildUrl c) id n k,
              buildFetches := w.buildFetches + k }) := by
  intro k
  induction k with
  | zero =>
    intro left n lastErr prev w _ _
    exact ⟨lastErr, prev, by simp [failedAttempts]⟩
  | succ k ih =>
    intro left n lastErr prev w hn hall
    have h0 : BuildRetryable (doFetchBuildResult env c id w.buildFetches) := by
      simpa using hall 0 (Nat.succ_pos k)
    have hstep := fetchBuildAttempt_eq env c id prev w
    rw [if_pos h0] at hstep
    have hne : n ≠ buildRetryConfig.attempts - 1 := by
      simp [buildRetryConfig]; omega
    have hrw : left + (k + 1) = (left + k) + 1 := by omega
    rw [hrw, retryLoop_failed _ _ _ _ _ _ _ _ _ hstep hne]
    obtain ⟨e1, p1, h1⟩ := ih left (n + 1) (some (buildAttemptError (doFetchBuildResult env c id w.buildFetches)))
      (doFetchBuildResult env c id w.buildFetches).1
      (emit (Event.sleep (delayTime buildRetryConfig n))
        { w with
          trace := w.trace ++ [Event.httpGet (buildUrl c) id],
          buildFetches := w.buildFetches + 1 })
      (by omega)
      (by
        intro i hi
        have := hall (i + 1) (by omega)
        simpa [emit, Nat.add_assoc, Nat.add_comm 1 i] using this)
    refine ⟨e1, p1, ?_⟩
    simp only [retrySleep]
    rw [h1]
    simp [emit, failedAttempts, Nat.add_assoc, Nat.add_comm 1 k]

theorem FetchBuild_stops (env : Env) (c : CodecraftersClient) (id : String) (w : World)
    (k : Nat) (resp : FetchBuildStatusResponse) (hk : k < 11)
    (hall : ∀ i, i < k → BuildRetryable (doFetchBuildResult env c id (w.buildFetches + i)))
    (hlast : doFetchBuildResult env c id (w.buildFetches + k) = (resp, none))
    (hterm : Terminal resp.Status) :
    FetchBuild env c id w =
      ((resp, none),
        { w with
          trace := w.trace ++ failedAttempts buildRetryConfig (buildUrl c) id 0 k
            ++ [Event.httpGet (buildUrl c) id],
          buildFetches := w.buildFetches + (k + 1) }) := by
  unfold FetchBuild retryDo
  have hatt : buildRetryConfig.attempts = (10 - k + 1) + k := by
    simp [buildRetryConfig]; omega
  obtain ⟨e1, p1, h1⟩ := build_failures env c id k (10 - k + 1) 0 none
    FetchBuildStatusResponse.zero w (by omega) hall
  rw [hatt, h1]
  have hstep := fetchBuildAttempt_eq env c id p1
    { w with
      trace := w.trace ++ failedAttempts buildRetryConfig (buildUrl c) id 0 k,
      buildFetches := w.buildFetches + k }
  simp only [hlast] at hstep
  have hnot : ¬ BuildRetryable (resp, none) := by
    simp [BuildRetryable, hterm]
  rw [if_neg hnot] at hstep
  rw [retryLoop_ok _ _ _ _ _ _ _ _ hstep]
  simp [Nat.add_assoc]

theorem doFetchBuildResult_zero (env : Env) (c : CodecraftersClient) (id : String) (i : Nat)
    (h : (doFetchBuildResult env c id i).2 ≠ none) :
    (doFetchBuildResult env c id i).1 = FetchBuildStatusResponse.zero := by
  unfold doFetchBuildResult at h ⊢
  split
  · rfl
  · split
    · rfl
    · split
      · rfl
      · rename_i hresp _ _ _ hdec
        simp [hresp, hdec] at h
        split at h <;> simp_all

theorem doFetchTestRunResult_zero (env : Env) (c : CodecraftersClient) (id : String) (i : Nat)
    (h : (doFetchTestRunResult env c id i).2 ≠ none) :
    (doFetchTestRunResult env c id i).1 = FetchTestRunResponse.zero := by
  unfold doFetchTestRunResult at h ⊢
  split
  · rfl
  · split
    · rfl
    · split
      · rfl
      · rename_i hresp _ _ _ hdec
        simp [hresp, hdec] at h
        split at h <;> simp_all

/-- The status of a retryable single-shot build result is not terminal. -/
theorem BuildRetryable.status (env : Env) (c : CodecraftersClient) (id : String) (i : Nat)
    (h : BuildRetryable (doFetchBuildResult env c id i)) :
    ¬ Terminal (doFetchBuildResult env c id i).1.Status := by
  rcases h with h | h
  · rw [doFetchBuildResult_zero env c id i h]
    simp [Terminal, FetchBuildStatusResponse.zero]
  · exact h

theorem guard_of_not_terminal (status : String) (h : ¬ Terminal status) :
    status ≠ "failure" ∧ status ≠ "success" := by
  unfold Terminal at h; push_neg at h; exact ⟨h.2, h.1⟩

theorem FetchBuild_exhausts (env : Env) (c : CodecraftersClient) (id : String) (w : World)
    (hall : ∀ i, i < 11 → BuildRetryable (doFetchBuildResult env c id (w.buildFetches + i))) :
    FetchBuild env c id w =
      ((FetchBuildStatusResponse.zero,
          some (buildAttemptError (doFetchBuildResult env c id (w.buildFetches + 10)))),
        { w with
          trace := w.trace ++ failedAttempts buildRetryConfig (buildUrl c) id 0 10
            ++ [Event.httpGet (buildUrl c) id]
            ++ [Event.captureException
                (buildAttemptError (doFetchBuildResult env c id (w.buildFetches + 10)))],
          buildFetches := w.buildFetches + 11 }) := by
  unfold FetchBuild retryDo
  have hatt : buildRetryConfig.attempts = (0 + 1) + 10 := by
    simp [buildRetryConfig]
  obtain ⟨e1, p1, h1⟩ := build_failures env c id 10 (0 + 1) 0 none
    FetchBuildStatusResponse.zero w (by omega) (fun i hi => hall i (by omega))
  rw [hatt, h1]
  have hstep := fetchBuildAttempt_eq env c id p1
    { w with
      trace := w.trace ++ failedAttempts buildRetryConfig (buildUrl c) id 0 10,
      buildFetches := w.buildFetches + 10 }
  simp only [] at hstep
  rw [if_pos (hall 10 (by omega))] at hstep
  rw [retryLoop_last_failed _ _ _ _ _ _ _ _ _ hstep (by simp [buildRetryConfig])]
  have hg := guard_of_not_terminal _ (BuildRetryable.status env c id _ (hall 10 (by omega)))
  simp only [hg, and_self, if_true, ne_eq, not_false_eq_true]
  simp [emit]

/-! ## What a poller leaves untouched, and where its result comes from -/

theorem PollExtends.refl (w : World) : PollExtends w w :=
  ⟨[], by simp, by simp, rfl⟩

theorem PollExtends.emit_sleep {w w1 : World} (h : PollExtends w w1) (d : Nat) :
    PollExtends w (emit (Event.sleep d) w1) := by
  obtain ⟨evs, ht, hp, hs⟩ := h
  refine ⟨evs ++ [Event.sleep d], by simp [emit, ht], ?_, by simp [emit, hs]⟩
  intro e he
  rcases List.mem_append.mp he with h1 | h1
  · exact hp e h1
  · simp at h1; subst h1; rfl

/-- Retry events followed by one more GET are retry events. -/
theorem PollExtends.get {w w0 : World} (h : PollExtends w w0) (url id : String) (n m : Nat) :
    PollExtends w { w0 with trace := w0.trace ++ [Event.httpGet url id],
                            testRunFetches := n, buildFetches := m } := by
  obtain ⟨evs, ht, hp, hs⟩ := h
  refine ⟨evs ++ [Event.httpGet url id], by simp [ht], ?_, by simp [hs]⟩
  intro e he
  rcases List.mem_append.mp he with h1 | h1
  · exact hp e h1
  · simp at h1; subst h1; rfl

theorem FetchTestRun_result (env : Env) (c : CodecraftersClient) (id : String) (w : World) :
    ∃ (prev : FetchTestRunResponse) (w0 : World),
      PollExtends w w0 ∧ w.testRunFetches ≤ w0.testRunFetches ∧
      w0.buildFetches = w.buildFetches ∧
      retryDo testRunRetryConfig retrySleep (fetchTestRunAttempt env c id)
          (FetchTestRunResponse.zero, w) =
        fetchTestRunAttempt env c id (prev, w0) := by
  have key := retryLoop_last testRunRetryConfig retrySleep (fetchTestRunAttempt env c id)
    (fun s => PollExtends w s.2 ∧ w.testRunFetches ≤ s.2.testRunFetches ∧
      s.2.buildFetches = w.buildFetches)
    (by
      rintro ⟨prev, w0⟩ ⟨hext, hle, hb⟩
      rw [fetchTestRunAttempt_eq]
      dsimp only at hext hle hb ⊢
      exact ⟨hext.get (testRunUrl c) id _ _, by omega, hb⟩)
    (by
      rintro d ⟨prev, w0⟩ ⟨hext, hle, hb⟩
      exact ⟨hext.emit_sleep d, by simpa [retrySleep, emit] using hle,
        by simpa [retrySleep, emit] using hb⟩)
    testRunRetryConfig.attempts 0 none (FetchTestRunResponse.zero, w)
    (by simp [testRunRetryConfig]) (by simp) ⟨PollExtends.refl w, Nat.le_refl _, rfl⟩
  obtain ⟨⟨prev, w0⟩, ⟨hext, hle, hb⟩, heq⟩ := key
  exact ⟨prev, w0, hext, hle, hb, heq.symm⟩

theorem FetchBuild_result (env : Env) (c : CodecraftersClient) (id : String) (w : World) :
    ∃ (prev : FetchBuildStatusResponse) (w0 : World),
      PollExtends w w0 ∧ w.buildFetches ≤ w0.buildFetches ∧
      w0.testRunFetches = w.testRunFetches ∧
      retryDo buildRetryConfig retrySleep (fetchBuildAttempt env c id)
          (FetchBuildStatusResponse.zero, w) =
        fetchBuildAttempt env c id (prev, w0) := by
  have key := retryLoop_last buildRetryConfig retrySleep (fetchBuildAttempt env c id)
    (fun s => PollExtends w s.2 ∧ w.buildFetches ≤ s.2.buildFetches ∧
      s.2.testRunFetches = w.testRunFetches)
    (by
      rintro ⟨prev, w0⟩ ⟨hext, hle, hb⟩
      rw [fetchBuildAttempt_eq]
      dsimp only at hext hle hb ⊢
      exact ⟨hext.get (buildUrl c) id _ _, by omega, hb⟩)
    (by
      rintro d ⟨prev, w0⟩ ⟨hext, hle, hb⟩
      exact ⟨hext.emit_sleep d, by simpa [retrySleep, emit] using hle,
        by simpa [retrySleep, emit] using hb⟩)
    buildRetryConfig.attempts 0 none (FetchBuildStatusResponse.zero, w)
    (by simp [buildRetryConfig]) (by simp) ⟨PollExtends.refl w, Nat.le_refl _, rfl⟩
  obtain ⟨⟨prev, w0⟩, ⟨hext, hle, hb⟩, heq⟩ := key
  exact ⟨prev, w0, hext, hle, hb, heq.symm⟩

/-- Every way FetchTestRun can end, in terms of its last single-shot fetch. -/
theorem FetchTestRun_cases (env : Env) (c : CodecraftersClient) (id : String) (w : World) :
    ∃ (j : Nat) (w1 : World), w.testRunFetches ≤ j ∧
      PollExtends w w1 ∧ w1.testRunFetches = j + 1 ∧ w1.buildFetches = w.buildFetches ∧
      ((¬ TestRunRetryable (doFetchTestRunResult env c id j) ∧
          FetchTestRun env c id w = (((doFetchTestRunResult env c id j).1, none), w1)) ∨
       (TestRunRetryable (doFetchTestRunResult env c id j) ∧
          FetchTestRun env c id w =
            ((FetchTestRunResponse.zero,
              some (testRunAttemptError (doFetchTestRunResult env c id j))), w1))) := by
  obtain ⟨prev, w0, hext, hle, hb, heq⟩ := FetchTestRun_result env c id w
  rw [fetchTestRunAttempt_eq] at heq
  refine ⟨w0.testRunFetches, _, hle, hext.get (testRunUrl c) id (w0.testRunFetches + 1) w0.buildFetches,
    rfl, hb, ?_⟩
  unfold FetchTestRun
  rw [heq]
  by_cases hr : TestRunRetryable (doFetchTestRunResult env c id w0.testRunFetches)
  · right; exact ⟨hr, by simp [hr]⟩
  · left; exact ⟨hr, by simp [hr]⟩

/-- Every way FetchBuild can end, in terms of its last single-shot fetch. -/
theorem FetchBuild_cases (env : Env) (c : CodecraftersClient) (id : String) (w : World) :
    ∃ (j : Nat) (w1 : World), w.buildFetches ≤ j ∧
      PollExtends w w1 ∧ w1.buildFetches = j + 1 ∧ w1.testRunFetches = w.testRunFetches ∧
      ((¬ BuildRetryable (doFetchBuildResult env c id j) ∧
          FetchBuild env c id w = (((doFetchBuildResult env c id j).1, none), w1)) ∨
       (BuildRetryable (doFetchBuildResult env c id j) ∧
          FetchBuild env c id w =
            ((FetchBuildStatusResponse.zero,
              some (buildAttemptError (doFetchBuildResult env c id j))),
             emit (Event.captureException (buildAttemptError (doFetchBuildResult env c id j)))
               w1))) := by
  obtain ⟨prev, w0, hext, hle, hb, heq⟩ := FetchBuild_result env c id w
  rw [fetchBuildAttempt_eq] at heq
  refine ⟨w0.buildFetches, _, hle, hext.get (buildUrl c) id w0.testRunFetches (w0.buildFetches + 1),
    rfl, hb, ?_⟩
  unfold FetchBuild
  rw [heq]
  by_cases hr : BuildRetryable (doFetchBuildResult env c id w0.buildFetches)
  · right
    have hg := guard_of_not_terminal _ (BuildRetryable.status env c id _ hr)
    exact ⟨hr, by simp [hr, hg]⟩
  · left; exact ⟨hr, by simp [hr]⟩

/-! ## Frames of the handler's steps -/

@[simp] theorem streamCalls_append (a b : List Event) :
    streamCalls (a ++ b) = streamCalls a ++ streamCalls b := by
  simp [streamCalls]

@[simp] theorem captures_append (a b : List Event) :
    captures (a ++ b) = captures a ++ captures b := by
  simp [captures]

theorem streamCalls_poll (evs : List Event) (h : ∀ e ∈ evs, Event.isPoll e = true) :
    streamCalls evs = [] := by
  induction evs with
  | nil => rfl
  | cons e es ih =>
    have he := h e (List.mem_cons_self e es)
    have hes := ih (fun x hx => h x (List.mem_cons_of_mem e hx))
    cases e <;> simp_all [streamCalls, Event.isPoll]

theorem captures_poll (evs : List Event) (h : ∀ e ∈ evs, Event.isPoll e = true) :
    captures evs = [] := by
  induction evs with
  | nil => rfl
  | cons e es ih =>
    have he := h e (List.mem_cons_self e es)
    have hes := ih (fun x hx => h x (List.mem_cons_of_mem e hx))
    cases e <;> simp_all [captures, Event.isPoll]

theorem PollExtends.streamCalls_eq {w w1 : World} (h : PollExtends w w1) :
    streamCalls w1.trace = streamCalls w.trace := by
  obtain ⟨evs, ht, hp, _⟩ := h
  rw [ht, streamCalls_append, streamCalls_poll evs hp, List.append_nil]

theorem PollExtends.captures_eq {w w1 : World} (h : PollExtends w w1) :
    captures w1.trace = captures w.trace := by
  obtain ⟨evs, ht, hp, _⟩ := h
  rw [ht, captures_append, captures_poll evs hp, List.append_nil]

theorem PollExtends.streams_eq {w w1 : World} (h : PollExtends w w1) :
    w1.streams = w.streams := by
  obtain ⟨_, _, _, hs⟩ := h
  exact hs

@[simp] theorem println_frame (s : String) (w : World) :
    streamCalls (println s w).trace = streamCalls w.trace ∧
    captures (println s w).trace = captures w.trace ∧
    (println s w).streams = w.streams ∧
    (println s w).testRunFetches = w.testRunFetches ∧
    (println s w).buildFetches = w.buildFetches := by
  simp [println, emit, streamCalls, captures]

@[simp] theorem eprintln_frame (s : String) (w : World) :
    streamCalls (eprintln s w).trace = streamCalls w.trace ∧
    captures (eprintln s w).trace = captures w.trace ∧
    (eprintln s w).streams = w.streams ∧
    (eprintln s w).testRunFetches = w.testRunFetches ∧
    (eprintln s w).buildFetches = w.buildFetches := by
  simp [eprintln, emit, streamCalls, captures]

theorem sleep_frame (d : Nat) (w : World) :
    streamCalls (emit (Event.sleep d) w).trace = streamCalls w.trace ∧
    captures (emit (Event.sleep d) w).trace = captures w.trace ∧
    (emit (Event.sleep d) w).streams = w.streams ∧
    (emit (Event.sleep d) w).testRunFetches = w.testRunFetches ∧
    (emit (Event.sleep d) w).buildFetches = w.buildFetches := by
  simp [emit, streamCalls, captures]

theorem testBanner_frame (w : World) :
    streamCalls (testBanner w).trace = streamCalls w.trace ∧
    captures (testBanner w).trace = captures w.trace ∧
    (testBanner w).streams = w.streams ∧
    (testBanner w).testRunFetches = w.testRunFetches ∧
    (testBanner w).buildFetches = w.buildFetches := by
  simp [testBanner, println, emit, streamCalls, captures]

theorem streamLogs_frame (env : Env) (url : String) (w : World) :
    streamCalls (streamLogs env url w).2.trace = streamCalls w.trace ++ [url] ∧
    captures (streamLogs env url w).2.trace = captures w.trace ∧
    (streamLogs env url w).2.streams = w.streams + 1 ∧
    (streamLogs env url w).2.testRunFetches = w.testRunFetches ∧
    (streamLogs env url w).2.buildFetches = w.buildFetches := by
  unfold streamLogs
  split <;> simp [emit, streamCalls, captures]

/-- What the test phase adds to the world: one stream call and no escalation. -/
theorem testPhase_frame (env : Env) (c : CodecraftersClient) (r : CreateTestRunResponse)
    (w : World) :
    streamCalls (testPhase env c r w).2.trace = streamCalls w.trace ++ [r.LogstreamURL] ∧
    captures (testPhase env c r w).2.trace = captures w.trace ∧
    (testPhase env c r w).2.streams = w.streams + 1 ∧
    (testPhase env c r w).2.buildFetches = w.buildFetches ∧
    ∃ err, (testPhase env c r w).1 = Outcome.returned err := by
  have hs := streamLogs_frame env r.LogstreamURL (testBanner w)
  have hb := testBanner_frame w
  unfold testPhase
  rcases hsl : streamLogs env r.LogstreamURL (testBanner w) with ⟨serr, w1⟩
  rw [hsl] at hs
  cases serr with
  | some e =>
    simp only []
    exact ⟨by rw [hs.1, hb.1], by rw [hs.2.1, hb.2.1], by rw [hs.2.2.1, hb.2.2.1],
      by rw [hs.2.2.2.2, hb.2.2.2.2], _, rfl⟩
  | none =>
    simp only []
    obtain ⟨j, w2, _, hext, _, hbf, hcase⟩ := FetchTestRun_cases env c r.ID w1
    have hsc : streamCalls w2.trace = streamCalls w.trace ++ [r.LogstreamURL] := by
      rw [hext.streamCalls_eq, hs.1, hb.1]
    have hcp : captures w2.trace = captures w.trace := by
      rw [hext.captures_eq, hs.2.1, hb.2.1]
    have hst : w2.streams = w.streams + 1 := by
      rw [hext.streams_eq, hs.2.2.1, hb.2.2.1]
    have hbb : w2.buildFetches = w.buildFetches := by
      rw [hbf, hs.2.2.2.2, hb.2.2.2.2]
    rcases hcase with ⟨_, hres⟩ | ⟨_, hres⟩
    · rw [hres]
      simp only []
      split_ifs <;> simp [hsc, hcp, hst, hbb]
    · rw [hres]
      simp [hsc, hcp, hst, hbb]

/-! ## The build phase, case by case -/

theorem buildPhase_skip (env : Env) (c : CodecraftersClient) (r : CreateTestRunResponse)
    (w : World) (h : r.PendingBuildLogstreamURL = "") :
    buildPhase env c r w = (none, w) := by
  unfold buildPhase
  simp [h]

theorem buildPhase_stream_failed (env : Env) (c : CodecraftersClient)
    (r : CreateTestRunResponse) (w w1 : World) (e : GoError)
    (h : r.PendingBuildLogstreamURL ≠ "")
    (hs : streamLogs env r.PendingBuildLogstreamURL (println "" w) = (some e, w1)) :
    buildPhase env c r w =
      (some (Outcome.returned (some ⟨"stream build logs: " ++ e.message⟩)), w1) := by
  unfold buildPhase
  simp [h, hs]

theorem buildPhase_fetch_failed (env : Env) (c : CodecraftersClient)
    (r : CreateTestRunResponse) (w w1 w2 : World) (resp : FetchBuildStatusResponse)
    (err : GoError) (h : r.PendingBuildLogstreamURL ≠ "")
    (hs : streamLogs env r.PendingBuildLogstreamURL (println "" w) = (none, w1))
    (hf : FetchBuild env c r.PendingBuildID w1 = ((resp, some err), w2)) :
    buildPhase env c r w =
      (some (Outcome.returned (some err)),
        eprintln (red "Let us know at hello@codecrafters.io if this error persists.")
          (eprintln (red "We couldn't fetch the results of your test run. Please try again?")
            (eprintln "" (eprintln (red err.message) w2)))) := by
  unfold buildPhase
  simp [h, hs, hf]

theorem buildPhase_build_failed (env : Env) (c : CodecraftersClient)
    (r : CreateTestRunResponse) (w w1 w2 : World) (resp : FetchBuildStatusResponse)
    (h : r.PendingBuildLogstreamURL ≠ "")
    (hs : streamLogs env r.PendingBuildLogstreamURL (println "" w) = (none, w1))
    (hf : FetchBuild env c r.PendingBuildID w1 = ((resp, none), w2))
    (hst : resp.Status = "failure") :
    buildPhase env c r w =
      (some (Outcome.exited 0),
        eprintln (red "")
          (eprintln (red "If you think this is a CodeCrafters error, please let us know at hello@codecrafters.io.")
            (eprintln (red "Looks like your codebase failed to build.")
              (eprintln (red "") w2)))) := by
  unfold buildPhase
  simp [h, hs, hf, hst]

theorem buildPhase_build_succeeded (env : Env) (c : CodecraftersClient)
    (r : CreateTestRunResponse) (w w1 w2 : World) (resp : FetchBuildStatusResponse)
    (h : r.PendingBuildLogstreamURL ≠ "")
    (hs : streamLogs env r.PendingBuildLogstreamURL (println "" w) = (none, w1))
    (hf : FetchBuild env c r.PendingBuildID w1 = ((resp, none), w2))
    (hst : resp.Status = "success") :
    buildPhase env c r w = (none, emit (Event.sleep (1 * Second)) w2) := by
  unfold buildPhase
  simp [h, hs, hf, hst]

/-- A nil error from FetchBuild comes with a terminal status. -/
theorem FetchBuild_ok_terminal (env : Env) (c : CodecraftersClient) (id : String)
    (w w1 : World) (resp : FetchBuildStatusResponse)
    (h : FetchBuild env c id w = ((resp, none), w1)) :
    Terminal resp.Status ∧ PollExtends w w1 ∧ w1.testRunFetches = w.testRunFetches ∧
      w.buildFetches < w1.buildFetches ∧
      doFetchBuildResult env c id (w1.buildFetches - 1) = (resp, none) := by
  obtain ⟨j, w2, hle, hext, hj, htf, hcase⟩ := FetchBuild_cases env c id w
  rcases hcase with ⟨hnr, hres⟩ | ⟨_, hres⟩
  · rw [hres] at h
    simp only [Prod.mk.injEq, and_true, true_and] at h
    obtain ⟨hresp, hw⟩ := h
    subst hw
    unfold BuildRetryable at hnr
    push_neg at hnr
    have hj1 : w2.buildFetches - 1 = j := by omega
    refine ⟨by rw [← hresp]; exact hnr.2, hext, htf, by omega, ?_⟩
    rw [hj1, ← hresp]
    exact Prod.ext rfl hnr.1
  · rw [hres] at h
    simp at h

/-- A nil error from FetchTestRun comes with a terminal status. -/
theorem FetchTestRun_ok_terminal (env : Env) (c : CodecraftersClient) (id : String)
    (w w1 : World) (resp : FetchTestRunResponse)
    (h : FetchTestRun env c id w = ((resp, none), w1)) :
    Terminal resp.Status ∧ PollExtends w w1 ∧ w1.buildFetches = w.buildFetches ∧
      w.testRunFetches < w1.testRunFetches ∧
      doFetchTestRunResult env c id (w1.testRunFetches - 1) = (resp, none) := by
  obtain ⟨j, w2, hle, hext, hj, htf, hcase⟩ := FetchTestRun_cases env c id w
  rcases hcase with ⟨hnr, hres⟩ | ⟨_, hres⟩
  · rw [hres] at h
    simp only [Prod.mk.injEq, and_true, true_and] at h
    obtain ⟨hresp, hw⟩ := h
    subst hw
    unfold TestRunRetryable at hnr
    push_neg at hnr
    have hj1 : w2.testRunFetches - 1 = j := by omega
    refine ⟨by rw [← hresp]; exact hnr.2, hext, htf, by omega, ?_⟩
    rw [hj1, ← hresp]
    exact Prod.ext rfl hnr.1
  · rw [hres] at h
    simp at h

/-- An error from FetchBuild is always reported to Sentry, as the last thing FetchBuild does. -/
theorem FetchBuild_error_captured (env : Env) (c : CodecraftersClient) (id : String)
    (w w1 : World) (resp : FetchBuildStatusResponse) (err : GoError)
    (h : FetchBuild env c id w = ((resp, some err), w1)) :
    resp = FetchBuildStatusResponse.zero ∧
    ∃ w0, PollExtends w w0 ∧ w1 = emit (Event.captureException err) w0 ∧
      w0.testRunFetches = w.testRunFetches := by
  obtain ⟨j, w2, hle, hext, hj, htf, hcase⟩ := FetchBuild_cases env c id w
  rcases hcase with ⟨_, hres⟩ | ⟨_, hres⟩
  · rw [hres] at h
    simp at h
  · rw [hres] at h
    simp only [Prod.mk.injEq, Option.some.injEq] at h
    obtain ⟨⟨hresp, herr⟩, hw⟩ := h
    exact ⟨hresp.symm, w2, hext, by rw [← hw, herr], htf⟩

/-- Every way the build phase can end. -/
theorem buildPhase_cases (env : Env) (c : CodecraftersClient) (r : CreateTestRunResponse)
    (w : World) :
    (r.PendingBuildLogstreamURL = "" ∧ buildPhase env c r w = (none, w)) ∨
    (r.PendingBuildLogstreamURL ≠ "" ∧ ∃ e w1,
      streamLogs env r.PendingBuildLogstreamURL (println "" w) = (some e, w1) ∧
      buildPhase env c r w =
        (some (Outcome.returned (some ⟨"stream build logs: " ++ e.message⟩)), w1)) ∨
    (r.PendingBuildLogstreamURL ≠ "" ∧ ∃ w1 w2 err,
      streamLogs env r.PendingBuildLogstreamURL (println "" w) = (none, w1) ∧
      FetchBuild env c r.PendingBuildID w1 =
        ((FetchBuildStatusResponse.zero, some err), w2) ∧
      buildPhase env c r w =
        (some (Outcome.returned (some err)),
          eprintln (red "Let us know at hello@codecrafters.io if this error persists.")
            (eprintln (red "We couldn't fetch the results of your test run. Please try again?")
              (eprintln "" (eprintln (red err.message) w2))))) ∨
    (r.PendingBuildLogstreamURL ≠ "" ∧ ∃ w1 w2 resp,
      streamLogs env r.PendingBuildLogstreamURL (println "" w) = (none, w1) ∧
      FetchBuild env c r.PendingBuildID w1 = ((resp, none), w2) ∧
      resp.Status = "failure" ∧
      buildPhase env c r w =
        (some (Outcome.exited 0),
          eprintln (red "")
            (eprintln (red "If you think this is a CodeCrafters error, please let us know at hello@codecrafters.io.")
              (eprintln (red "Looks like your codebase failed to build.")
                (eprintln (red "") w2))))) ∨
    (r.PendingBuildLogstreamURL ≠ "" ∧ ∃ w1 w2 resp,
      streamLogs env r.PendingBuildLogstreamURL (println "" w) = (none, w1) ∧
      FetchBuild env c r.PendingBuildID w1 = ((resp, none), w2) ∧
      resp.Status = "success" ∧
      buildPhase env c r w = (none, emit (Event.sleep (1 * Second)) w2)) := by
  by_cases hurl : r.PendingBuildLogstreamURL = ""
  · exact Or.inl ⟨hurl, buildPhase_skip env c r w hurl⟩
  · right
    rcases hs : streamLogs env r.PendingBuildLogstreamURL (println "" w) with ⟨serr, w1⟩
    cases serr with
    | some e =>
      exact Or.inl ⟨hurl, e, w1, rfl, buildPhase_stream_failed env c r w w1 e hurl hs⟩
    | none =>
      right
      rcases hf : FetchBuild env c r.PendingBuildID w1 with ⟨⟨resp, ferr⟩, w2⟩
      cases ferr with
      | some err =>
        have hz := (FetchBuild_error_captured env c _ w1 w2 resp err hf).1
        subst hz
        exact Or.inl ⟨hurl, w1, w2, err, rfl, hf,
          buildPhase_fetch_failed env c r w w1 w2 _ err hurl hs hf⟩
      | none =>
        right
        rcases (FetchBuild_ok_terminal env c _ w1 w2 resp hf).1 with hst | hst
        · exact Or.inr ⟨hurl, w1, w2, resp, rfl, hf, hst,
            buildPhase_build_succeeded env c r w w1 w2 resp hurl hs hf hst⟩
        · exact Or.inl ⟨hurl, w1, w2, resp, rfl, hf, hst,
            buildPhase_build_failed env c r w w1 w2 resp hurl hs hf hst⟩

/-- The world a stream call leaves, given its result. -/
theorem streamLogs_frame_of (env : Env) (url : String) (w w1 : World) (err : Error)
    (h : streamLogs env url w = (err, w1)) :
    streamCalls w1.trace = streamCalls w.trace ++ [url] ∧
    captures w1.trace = captures w.trace ∧
    w1.streams = w.streams + 1 ∧
    w1.testRunFetches = w.testRunFetches ∧
    w1.buildFetches = w.buildFetches := by
  have hs := streamLogs_frame env url w
  rw [h] at hs
  exact hs

/-- When the build phase hands over to the test phase, nothing was escalated
and no run-status request was made. -/
theorem buildPhase_continue_frame (env : Env) (c : CodecraftersClient)
    (r : CreateTestRunResponse) (w w0 : World) (h : buildPhase env c r w = (none, w0)) :
    captures w0.trace = captures w.trace ∧ w0.testRunFetches = w.testRunFetches := by
  rcases buildPhase_cases env c r w with
    ⟨_, hb⟩ | ⟨_, e, w1, _, hb⟩ | ⟨_, w1, w2, err, _, _, hb⟩ | ⟨_, w1, w2, resp, _, _, _, hb⟩ |
    ⟨_, w1, w2, resp, hs, hf, _, hb⟩
  · rw [hb] at h
    simp only [Prod.mk.injEq, true_and] at h
    subst h
    exact ⟨rfl, rfl⟩
  · rw [hb] at h; simp at h
  · rw [hb] at h; simp at h
  · rw [hb] at h; simp at h
  · rw [hb] at h
    simp only [Prod.mk.injEq, true_and] at h
    subst h
    obtain ⟨_, hext, htf, _, _⟩ := FetchBuild_ok_terminal env c _ w1 w2 resp hf
    obtain ⟨_, hc, _, ht, _⟩ := streamLogs_frame_of env _ _ w1 none hs
    have hp := println_frame "" w
    have hsl := sleep_frame (1 * Second) w2
    exact ⟨by rw [hsl.2.1, hext.captures_eq, hc, hp.2.1],
      by rw [hsl.2.2.2.1, htf, ht, hp.2.2.2.1]⟩

/-! ## The claims -/

/-- C1, counterexample: a response with an empty PendingBuildID and a non-empty
PendingBuildLogstreamURL does enter the build phase: the first stream opened is
the build log stream LB, not LogstreamURL, and FetchBuild makes a request. -/
theorem handleTestRun_empty_build_id_enters_build_phase :
    buildRunWithoutId.PendingBuildID = "" ∧
    buildRunWithoutId.LogstreamURL = "LT" ∧
    streamCalls (HandleTestRun buildRunWithoutId envAllGreen demoClient World.init).2.trace
      = ["LB", "LT"] ∧
    (HandleTestRun buildRunWithoutId envAllGreen demoClient World.init).2.buildFetches = 1 := by
  decide

/-- C1, amended: for every CreateTestRunResponse whose PendingBuildLogstreamURL is
empty, whatever its other fields (PendingBuildID included), HandleTestRun skips
build streaming and build polling: no build-status request is made, and the only
stream it opens, hence the first, is LogstreamURL. -/
theorem handleTestRun_skips_build_without_build_logstream (env : Env)
    (c : CodecraftersClient) (r : CreateTestRunResponse)
    (h : r.PendingBuildLogstreamURL = "") :
    (HandleTestRun r env c World.init).2.buildFetches = 0 ∧
    streamCalls (HandleTestRun r env c World.init).2.trace = [r.LogstreamURL] := by
  unfold HandleTestRun
  rw [buildPhase_skip env c r World.init h]
  obtain ⟨hsc, _, _, hbf, _⟩ := testPhase_frame env c r World.init
  exact ⟨by simpa [World.init] using hbf, by simpa [World.init, streamCalls] using hsc⟩

/-- C1, amended, at a response with a build id but no build log stream. -/
theorem handleTestRun_skips_build_without_build_logstream_witness :
    (HandleTestRun buildRunWithoutLogstream envAllGreen demoClient World.init).2.buildFetches = 0 ∧
    streamCalls (HandleTestRun buildRunWithoutLogstream envAllGreen demoClient World.init).2.trace
      = ["LT"] :=
  handleTestRun_skips_build_without_build_logstream envAllGreen demoClient
    buildRunWithoutLogstream (by decide)

/-- C2: whenever FetchTestRun or FetchBuild returns a nil error, the status of the
returned response is success or failure, and the response is the one the last
single-shot fetch of the call produced. -/
theorem poller_nil_error_gives_terminal_status (env : Env) (c : CodecraftersClient)
    (id : String) (w : World) :
    (∀ (resp : FetchTestRunResponse) (w1 : World),
      FetchTestRun env c id w = ((resp, none), w1) →
        (resp.Status = "success" ∨ resp.Status = "failure") ∧
        w.testRunFetches < w1.testRunFetches ∧
        doFetchTestRunResult env c id (w1.testRunFetches - 1) = (resp, none)) ∧
    (∀ (resp : FetchBuildStatusResponse) (w1 : World),
      FetchBuild env c id w = ((resp, none), w1) →
        (resp.Status = "success" ∨ resp.Status = "failure") ∧
        w.buildFetches < w1.buildFetches ∧
        doFetchBuildResult env c id (w1.buildFetches - 1) = (resp, none)) := by
  constructor
  · intro resp w1 h
    obtain ⟨ht, _, _, hlt, hlast⟩ := FetchTestRun_ok_terminal env c id w w1 resp h
    exact ⟨ht, hlt, hlast⟩
  · intro resp w1 h
    obtain ⟨ht, _, _, hlt, hlast⟩ := FetchBuild_ok_terminal env c id w w1 resp h
    exact ⟨ht, hlt, hlast⟩

/-- C2 at the slow-success scenario: both pollers return the success payload of their last fetch. -/
theorem poller_nil_error_gives_terminal_status_witness :
    doFetchTestRunResult envSlowSuccess demoClient "T1" 2 = (⟨"success", "", false⟩, none) ∧
    doFetchBuildResult envSlowSuccess demoClient "B1" 3 = (⟨"success", "", false⟩, none) :=
  ⟨((poller_nil_error_gives_terminal_status envSlowSuccess demoClient "T1" World.init).1
      ⟨"success", "", false⟩ (FetchTestRun envSlowSuccess demoClient "T1" World.init).2
      (by decide)).2.2,
   ((poller_nil_error_gives_terminal_status envSlowSuccess demoClient "B1" World.init).2
      ⟨"success", "", false⟩ (FetchBuild envSlowSuccess demoClient "B1" World.init).2
      (by decide)).2.2⟩

/-- C3: if the first k single-shot fetches (k below the attempt limit: 5 for
FetchTestRun, 11 for FetchBuild) return a status that is not terminal and the
next one returns success, the poller returns success with a nil error after
exactly k + 1 fetches, and the time slept between them is the sum over i < k of
min (initialDelay * 2^i, maxDelay), with initial delays 500ms and 100ms and a
maximal delay of 2s. -/
theorem poller_success_after_k_retries (env : Env) (c : CodecraftersClient) (id : String)
    (w : World) (k : Nat) :
    (k < 5 →
      (∀ i, i < k → (doFetchTestRunResult env c id (w.testRunFetches + i)).2 = none ∧
        ¬ Terminal (doFetchTestRunResult env c id (w.testRunFetches + i)).1.Status) →
      (doFetchTestRunResult env c id (w.testRunFetches + k)).2 = none →
      (doFetchTestRunResult env c id (w.testRunFetches + k)).1.Status = "success" →
      (FetchTestRun env c id w).1.2 = none ∧
      (FetchTestRun env c id w).1.1.Status = "success" ∧
      (FetchTestRun env c id w).2.testRunFetches = w.testRunFetches + (k + 1) ∧
      totalSleep (FetchTestRun env c id w).2.trace =
        totalSleep w.trace +
          ∑ i ∈ Finset.range k, min (500 * Millisecond * 2 ^ i) (2 * Second)) ∧
    (k < 11 →
      (∀ i, i < k → (doFetchBuildResult env c id (w.buildFetches + i)).2 = none ∧
        ¬ Terminal (doFetchBuildResult env c id (w.buildFetches + i)).1.Status) →
      (doFetchBuildResult env c id (w.buildFetches + k)).2 = none →
      (doFetchBuildResult env c id (w.buildFetches + k)).1.Status = "success" →
      (FetchBuild env c id w).1.2 = none ∧
      (FetchBuild env c id w).1.1.Status = "success" ∧
      (FetchBuild env c id w).2.buildFetches = w.buildFetches + (k + 1) ∧
      totalSleep (FetchBuild env c id w).2.trace =
        totalSleep w.trace +
          ∑ i ∈ Finset.range k, min (100 * Millisecond * 2 ^ i) (2 * Second)) := by
  constructor
  · intro hk hall herr hst
    have hlast : doFetchTestRunResult env c id (w.testRunFetches + k) =
        ((doFetchTestRunResult env c id (w.testRunFetches + k)).1, none) :=
      Prod.ext rfl herr
    rw [FetchTestRun_stops env c id w k _ hk (fun i hi => Or.inr (hall i hi).2) hlast
      (Or.inl hst)]
    refine ⟨rfl, hst, rfl, ?_⟩
    simp only [totalSleep_append, totalSleep_failedAttempts]
    have hz : totalSleep [Event.httpGet (testRunUrl c) id] = 0 := by simp [totalSleep]
    rw [hz, Nat.add_zero]
    congr 1
    refine Finset.sum_congr rfl (fun i _ => ?_)
    rw [Nat.zero_add, delayTime_eq_min _ _ (by decide)]
    rfl
  · intro hk hall herr hst
    have hlast : doFetchBuildResult env c id (w.buildFetches + k) =
        ((doFetchBuildResult env c id (w.buildFetches + k)).1, none) :=
      Prod.ext rfl herr
    rw [FetchBuild_stops env c id w k _ hk (fun i hi => Or.inr (hall i hi).2) hlast
      (Or.inl hst)]
    refine ⟨rfl, hst, rfl, ?_⟩
    simp only [totalSleep_append, totalSleep_failedAttempts]
    have hz : totalSleep [Event.httpGet (buildUrl c) id] = 0 := by simp [totalSleep]
    rw [hz, Nat.add_zero]
    congr 1
    refine Finset.sum_congr rfl (fun i _ => ?_)
    rw [Nat.zero_add, delayTime_eq_min _ _ (by decide)]
    rfl

/-- C3 at the slow-success scenario: the run-status poller succeeds after 3 fetches
and 500ms + 1s of waiting, the build-status poller after 4 fetches and
100ms + 200ms + 400ms of waiting. -/
theorem poller_success_after_k_retries_witness :
    ((FetchTestRun envSlowSuccess demoClient "T1" World.init).1.2 = none ∧
      (FetchTestRun envSlowSuccess demoClient "T1" World.init).1.1.Status = "success" ∧
      (FetchTestRun envSlowSuccess demoClient "T1" World.init).2.testRunFetches = 0 + (2 + 1) ∧
      totalSleep (FetchTestRun envSlowSuccess demoClient "T1" World.init).2.trace =
        totalSleep World.init.trace +
          ∑ i ∈ Finset.range 2, min (500 * Millisecond * 2 ^ i) (2 * Second)) ∧
    ((FetchBuild envSlowSuccess demoClient "B1" World.init).1.2 = none ∧
      (FetchBuild envSlowSuccess demoClient "B1" World.init).1.1.Status = "success" ∧
      (FetchBuild envSlowSuccess demoClient "B1" World.init).2.buildFetches = 0 + (3 + 1) ∧
      totalSleep (FetchBuild envSlowSuccess demoClient "B1" World.init).2.trace =
        totalSleep World.init.trace +
          ∑ i ∈ Finset.range 3, min (100 * Millisecond * 2 ^ i) (2 * Second)) :=
  ⟨(poller_success_after_k_retries envSlowSuccess demoClient "T1" World.init 2).1
      (by decide) (by decide) (by decide) (by decide),
   (poller_success_after_k_retries envSlowSuccess demoClient "B1" World.init 3).2
      (by decide) (by decide) (by decide) (by decide)⟩

/-- C4: if all single-shot fetches of a poll (5 for FetchTestRun, 11 for
FetchBuild) return an error or a status that is not terminal, the poller makes
exactly that many fetches and returns the zero response with an error taken
from the last attempt alone: its transport error, or unexpected test run
status / unexpected build status followed by its status. Any other run of
failing attempts that ends in the same last attempt returns the same. -/
theorem poller_exhaustion_returns_last_error (env : Env) (c : CodecraftersClient)
    (id : String) (w : World) :
    ((∀ i, i < 5 → TestRunRetryable (doFetchTestRunResult env c id (w.testRunFetches + i))) →
      (FetchTestRun env c id w).1.1 = FetchTestRunResponse.zero ∧
      (∀ e, (doFetchTestRunResult env c id (w.testRunFetches + 4)).2 = some e →
        (FetchTestRun env c id w).1.2 = some e) ∧
      ((doFetchTestRunResult env c id (w.testRunFetches + 4)).2 = none →
        (FetchTestRun env c id w).1.2 = some ⟨"unexpected test run status: " ++
          (doFetchTestRunResult env c id (w.testRunFetches + 4)).1.Status⟩) ∧
      (FetchTestRun env c id w).2.testRunFetches = w.testRunFetches + 5 ∧
      (∀ env2 : Env,
        (∀ i, i < 5 → TestRunRetryable (doFetchTestRunResult env2 c id (w.testRunFetches + i))) →
        doFetchTestRunResult env2 c id (w.testRunFetches + 4) =
          doFetchTestRunResult env c id (w.testRunFetches + 4) →
        (FetchTestRun env2 c id w).1 = (FetchTestRun env c id w).1)) ∧
    ((∀ i, i < 11 → BuildRetryable (doFetchBuildResult env c id (w.buildFetches + i))) →
      (FetchBuild env c id w).1.1 = FetchBuildStatusResponse.zero ∧
      (∀ e, (doFetchBuildResult env c id (w.buildFetches + 10)).2 = some e →
        (FetchBuild env c id w).1.2 = some e) ∧
      ((doFetchBuildResult env c id (w.buildFetches + 10)).2 = none →
        (FetchBuild env c id w).1.2 = some ⟨"unexpected build status: " ++
          (doFetchBuildResult env c id (w.buildFetches + 10)).1.Status⟩) ∧
      (FetchBuild env c id w).2.buildFetches = w.buildFetches + 11 ∧
      (∀ env2 : Env,
        (∀ i, i < 11 → BuildRetryable (doFetchBuildResult env2 c id (w.buildFetches + i))) →
        doFetchBuildResult env2 c id (w.buildFetches + 10) =
          doFetchBuildResult env c id (w.buildFetches + 10) →
        (FetchBuild env2 c id w).1 = (FetchBuild env c id w).1)) := by
  constructor
  · intro hall
    rw [FetchTestRun_exhausts env c id w hall]
    refine ⟨rfl, ?_, ?_, rfl, ?_⟩
    · intro e he
      simp [testRunAttemptError, he]
    · intro he
      simp [testRunAttemptError, he]
    · intro env2 hall2 hsame
      rw [FetchTestRun_exhausts env2 c id w hall2, hsame]
  · intro hall
    rw [FetchBuild_exhausts env c id w hall]
    refine ⟨rfl, ?_, ?_, rfl, ?_⟩
    · intro e he
      simp [buildAttemptError, he]
    · intro he
      simp [buildAttemptError, he]
    · intro env2 hall2 hsame
      rw [FetchBuild_exhausts env2 c id w hall2, hsame]

/-- C4 at the never-terminal scenario: the run-status poll ends with the error
of its fifth attempt (status code 502), the build-status poll with the status
of its eleventh attempt (queued), whatever came before. -/
theorem poller_exhaustion_returns_last_error_witness :
    ((FetchTestRun envNeverTerminal demoClient "T1" World.init).1.2 =
        some ⟨"failed to fetch test run result from CodeCrafters. status code: 502"⟩ ∧
      (FetchTestRun envNeverTerminalOther demoClient "T1" World.init).1 =
        (FetchTestRun envNeverTerminal demoClient "T1" World.init).1) ∧
    ((FetchBuild envNeverTerminal demoClient "B1" World.init).1.2 =
        some ⟨"unexpected build status: queued"⟩ ∧
      (FetchBuild envNeverTerminalOther demoClient "B1" World.init).1 =
        (FetchBuild envNeverTerminal demoClient "B1" World.init).1) :=
  ⟨⟨((poller_exhaustion_returns_last_error envNeverTerminal demoClient "T1" World.init).1
        (by decide)).2.1 _ (by decide),
    ((poller_exhaustion_returns_last_error envNeverTerminal demoClient "T1" World.init).1
        (by decide)).2.2.2.2 envNeverTerminalOther (by decide) (by decide)⟩,
   ⟨((poller_exhaustion_returns_last_error envNeverTerminal demoClient "B1" World.init).2
        (by decide)).2.2.1 (by decide),
    ((poller_exhaustion_returns_last_error envNeverTerminal demoClient "B1" World.init).2
        (by decide)).2.2.2.2 envNeverTerminalOther (by decide) (by decide)⟩⟩

/-- C5: when the build phase is entered, the build logs stream without error and
FetchBuild returns the terminal status failure, the invocation ends the process
with exit status 0; the build log stream is the only stream opened
(streamLogs on LogstreamURL is never reached) and no run-status fetch is made. -/
theorem handleTestRun_build_failure_exits_zero (env : Env) (c : CodecraftersClient)
    (r : CreateTestRunResponse) (w w1 w2 : World) (resp : FetchBuildStatusResponse)
    (hurl : r.PendingBuildLogstreamURL ≠ "")
    (hs : streamLogs env r.PendingBuildLogstreamURL (println "" w) = (none, w1))
    (hf : FetchBuild env c r.PendingBuildID w1 = ((resp, none), w2))
    (hst : resp.Status = "failure") :
    (HandleTestRun r env c w).1 = Outcome.exited 0 ∧
    streamCalls (HandleTestRun r env c w).2.trace =
      streamCalls w.trace ++ [r.PendingBuildLogstreamURL] ∧
    (HandleTestRun r env c w).2.streams = w.streams + 1 ∧
    (HandleTestRun r env c w).2.testRunFetches = w.testRunFetches := by
  unfold HandleTestRun
  rw [buildPhase_build_failed env c r w w1 w2 resp hurl hs hf hst]
  obtain ⟨_, hext, htf, _, _⟩ := FetchBuild_ok_terminal env c _ w1 w2 resp hf
  obtain ⟨hsc, _, hstr, ht, _⟩ := streamLogs_frame_of env _ _ w1 none hs
  have hp := println_frame "" w
  refine ⟨rfl, ?_, ?_, ?_⟩
  · simp only [eprintln_frame]
    rw [hext.streamCalls_eq, hsc, hp.1]
  · simp only [eprintln_frame]
    rw [hext.streams_eq, hstr, hp.2.2.1]
  · simp only [eprintln_frame]
    rw [htf, ht, hp.2.2.2.1]

/-- C5 at the scenario of the spec: build B1 with log stream LB fails; the
process exits with status 0, only LB was streamed, the run status never fetched. -/
theorem handleTestRun_build_failure_exits_zero_witness :
    (HandleTestRun buildRun envBuildFails demoClient World.init).1 = Outcome.exited 0 ∧
    streamCalls (HandleTestRun buildRun envBuildFails demoClient World.init).2.trace =
      streamCalls World.init.trace ++ ["LB"] ∧
    (HandleTestRun buildRun envBuildFails demoClient World.init).2.streams = 0 + 1 ∧
    (HandleTestRun buildRun envBuildFails demoClient World.init).2.testRunFetches = 0 :=
  handleTestRun_build_failure_exits_zero envBuildFails demoClient buildRun World.init
    (streamLogs envBuildFails "LB" (println "" World.init)).2
    (FetchBuild envBuildFails demoClient "B1"
      (streamLogs envBuildFails "LB" (println "" World.init)).2).2
    ⟨"failure", "", false⟩ (by decide) (by decide) (by decide) (by decide)

/-- C6: when control reaches the test phase, the test logs stream without error
and FetchTestRun returns a response with a nil error, that response is terminal
and HandleTestRun returns an error exactly when the response has IsError set,
with ErrorMessage as its message; otherwise it returns nil, whatever the status. -/
theorem handleTestRun_result_follows_is_error (env : Env) (c : CodecraftersClient)
    (r : CreateTestRunResponse) (w w0 w1 w2 : World) (resp : FetchTestRunResponse)
    (hb : buildPhase env c r w = (none, w0))
    (hs : streamLogs env r.LogstreamURL (testBanner w0) = (none, w1))
    (hf : FetchTestRun env c r.ID w1 = ((resp, none), w2)) :
    (resp.Status = "success" ∨ resp.Status = "failure") ∧
    (HandleTestRun r env c w).1 =
      Outcome.returned (if resp.IsError then some ⟨resp.ErrorMessage⟩ else none) := by
  refine ⟨(FetchTestRun_ok_terminal env c _ w1 w2 resp hf).1, ?_⟩
  unfold HandleTestRun
  rw [hb]
  unfold testPhase
  simp only [hs, hf]
  split <;> rfl

/-- C6 at a run whose status is success but whose payload carries an error:
HandleTestRun returns that error. -/
theorem handleTestRun_result_follows_is_error_witness :
    (HandleTestRun plainRun envRunStatusError demoClient World.init).1 =
      Outcome.returned (some ⟨"denied"⟩) :=
  (handleTestRun_result_follows_is_error envRunStatusError demoClient plainRun World.init
    World.init
    (streamLogs envRunStatusError "LT" (testBanner World.init)).2
    (FetchTestRun envRunStatusError demoClient "T1"
      (streamLogs envRunStatusError "LT" (testBanner World.init)).2).2
    ⟨"success", "denied", true⟩ (by decide) (by decide) (by decide)).2

/-- C7, counterexample: a payload that parses with is_error true and the status
pending is retried by both pollers: a second fetch is made, and the response
returned is the later success payload, not the one carrying the error message. -/
theorem poller_retries_domain_error_with_pending_status :
    (doFetchTestRunResult envErrorThenSuccess demoClient "T1" 0 =
        (⟨"pending", "denied", true⟩, none) ∧
      (FetchTestRun envErrorThenSuccess demoClient "T1" World.init).2.testRunFetches = 2 ∧
      (FetchTestRun envErrorThenSuccess demoClient "T1" World.init).1 =
        (⟨"success", "", false⟩, none)) ∧
    (doFetchBuildResult envErrorThenSuccess demoClient "B1" 0 =
        (⟨"pending", "denied", true⟩, none) ∧
      (FetchBuild envErrorThenSuccess demoClient "B1" World.init).2.buildFetches = 2 ∧
      (FetchBuild envErrorThenSuccess demoClient "B1" World.init).1 =
        (⟨"success", "", false⟩, none)) := by
  decide

/-- C7, amended: a single-shot fetch result that parses with IsError true and a
terminal status (success or failure) is never retried: if it is the fetch with
index k of a poll (k below the attempt limit, the earlier ones retried),
FetchTestRun and FetchBuild make no further fetch and return that very
response, error message included, with a nil error. -/
theorem poller_returns_terminal_domain_error_as_is (env : Env) (c : CodecraftersClient)
    (id : String) (w : World) (k : Nat) :
    (∀ resp : FetchTestRunResponse, k < 5 →
      (∀ i, i < k → TestRunRetryable (doFetchTestRunResult env c id (w.testRunFetches + i))) →
      doFetchTestRunResult env c id (w.testRunFetches + k) = (resp, none) →
      resp.IsError = true → Terminal resp.Status →
      (FetchTestRun env c id w).1 = (resp, none) ∧
      (FetchTestRun env c id w).2.testRunFetches = w.testRunFetches + (k + 1)) ∧
    (∀ resp : FetchBuildStatusResponse, k < 11 →
      (∀ i, i < k → BuildRetryable (doFetchBuildResult env c id (w.buildFetches + i))) →
      doFetchBuildResult env c id (w.buildFetches + k) = (resp, none) →
      resp.IsError = true → Terminal resp.Status →
      (FetchBuild env c id w).1 = (resp, none) ∧
      (FetchBuild env c id w).2.buildFetches = w.buildFetches + (k + 1)) := by
  constructor
  · intro resp hk hall hlast _ hterm
    rw [FetchTestRun_stops env c id w k resp hk hall hlast hterm]
    exact ⟨rfl, rfl⟩
  · intro resp hk hall hlast _ hterm
    rw [FetchBuild_stops env c id w k resp hk hall hlast hterm]
    exact ⟨rfl, rfl⟩

/-- C7, amended, at a poll whose second fetch returns a terminal payload with
is_error: both pollers stop there and return it. -/
theorem poller_returns_terminal_domain_error_as_is_witness :
    ((FetchTestRun envPendingThenError demoClient "T1" World.init).1 =
        (⟨"success", "denied", true⟩, none) ∧
      (FetchTestRun envPendingThenError demoClient "T1" World.init).2.testRunFetches = 0 + (1 + 1)) ∧
    ((FetchBuild envPendingThenError demoClient "B1" World.init).1 =
        (⟨"failure", "denied", true⟩, none) ∧
      (FetchBuild envPendingThenError demoClient "B1" World.init).2.buildFetches = 0 + (1 + 1)) :=
  ⟨(poller_returns_terminal_domain_error_as_is envPendingThenError demoClient "T1"
      World.init 1).1 ⟨"success", "denied", true⟩ (by decide) (by decide) (by decide)
      (by decide) (by decide),
   (poller_returns_terminal_domain_error_as_is envPendingThenError demoClient "B1"
      World.init 1).2 ⟨"failure", "denied", true⟩ (by decide) (by decide) (by decide)
      (by decide) (by decide)⟩

/-- C8: a create-run response with status code 403 whose body decodes is not a
transport error: CreateTestRun returns the decoded response, with a nil error
when is_error is false and with an error whose message is error_message when it
is true. A response outside 2xx other than 403 gives the zero response and the
error failed to create test run with the status code and the body. -/
theorem createTestRun_403_is_parsed (env : Env) (c : CodecraftersClient)
    (autofixRequestId commitSha : String) (w : World) (response : HttpResponse)
    (hpost : env.postCreateTestRun (c.ServerUrl ++ "/services/coderbot/create_test_run")
      autofixRequestId commitSha = HttpResult.response response) :
    (response.StatusCode = 403 →
      ∀ r : CreateTestRunResponse, env.unmarshalCreateTestRun response.Body = Except.ok r →
        (CreateTestRun env c autofixRequestId commitSha w).1 =
          (r, if r.IsError then some ⟨r.ErrorMessage⟩ else none)) ∧
    (¬ (200 ≤ response.StatusCode ∧ response.StatusCode < 300) → response.StatusCode ≠ 403 →
      (CreateTestRun env c autofixRequestId commitSha w).1 =
        (CreateTestRunResponse.zero,
          some ⟨"failed to create test run. status code: " ++ toString response.StatusCode
            ++ ", body: " ++ response.Body⟩)) := by
  constructor
  · intro h403 r hr
    unfold CreateTestRun
    simp only [hpost]
    have hcond : (!response.Ok && decide (response.StatusCode ≠ 403)) = false := by
      simp [h403]
    rw [hcond]
    simp only [hr]
    cases r.IsError <;> simp
  · intro hok h403
    unfold CreateTestRun
    simp only [hpost]
    have hcond : (!response.Ok && decide (response.StatusCode ≠ 403)) = true := by
      simp only [HttpResponse.Ok, Bool.and_eq_true, Bool.not_eq_true', decide_eq_true_eq,
        Bool.and_eq_false_imp]
      refine ⟨?_, h403⟩
      intro h200
      by_contra hlt
      exact hok ⟨h200, by simpa using hlt⟩
    rw [hcond]
    simp

/-- C8 at a membership error sent with status code 403: CreateTestRun returns
the decoded response and its error message, not a transport error. -/
theorem createTestRun_403_is_parsed_witness :
    (CreateTestRun envCreateDenied demoClient "" "abc123" World.init).1 =
      (deniedRun, some ⟨"Your membership has expired"⟩) :=
  (createTestRun_403_is_parsed envCreateDenied demoClient "" "abc123" World.init
    ⟨403, createJson deniedRun⟩ (by decide)).1 (by decide) deniedRun rfl

/-- C9: when control reaches the test phase, the test logs stream without error
and the single-shot run-status fetch returns a status that is not terminal on
each of its 5 attempts, HandleTestRun returns a non-nil error (unexpected test
run status, with the last status) and nothing is reported to Sentry during the
invocation. FetchTestRun never reports to Sentry; a report made during
HandleTestRun comes from FetchBuild ending in an error, which is then the
error reported and returned. -/
theorem handleTestRun_run_status_exhaustion_not_escalated (env : Env)
    (c : CodecraftersClient) (r : CreateTestRunResponse) (w : World) :
    (∀ w0 w1 : World, buildPhase env c r w = (none, w0) →
      streamLogs env r.LogstreamURL (testBanner w0) = (none, w1) →
      (∀ i, i < 5 → (doFetchTestRunResult env c r.ID (w.testRunFetches + i)).2 = none ∧
        ¬ Terminal (doFetchTestRunResult env c r.ID (w.testRunFetches + i)).1.Status) →
      (HandleTestRun r env c w).1 =
        Outcome.returned (some ⟨"unexpected test run status: " ++
          (doFetchTestRunResult env c r.ID (w.testRunFetches + 4)).1.Status⟩) ∧
      captures (HandleTestRun r env c w).2.trace = captures w.trace) ∧
    (∀ (id : String) (w3 : World),
      captures (FetchTestRun env c id w3).2.trace = captures w3.trace) ∧
    (captures (HandleTestRun r env c w).2.trace ≠ captures w.trace →
      r.PendingBuildLogstreamURL ≠ "" ∧ ∃ w1 w2 err,
        streamLogs env r.PendingBuildLogstreamURL (println "" w) = (none, w1) ∧
        FetchBuild env c r.PendingBuildID w1 =
          ((FetchBuildStatusResponse.zero, some err), w2) ∧
        captures (HandleTestRun r env c w).2.trace = captures w.trace ++ [err] ∧
        (HandleTestRun r env c w).1 = Outcome.returned (some err)) := by
  refine ⟨?_, ?_, ?_⟩
  · intro w0 w1 hb hs hall
    obtain ⟨hcap0, htf0⟩ := buildPhase_continue_frame env c r w w0 hb
    obtain ⟨_, _, _, ht1, _⟩ := streamLogs_frame_of env _ _ w1 none hs
    have hbn := testBanner_frame w0
    have hidx : w1.testRunFetches = w.testRunFetches := by
      rw [ht1, hbn.2.2.2.1, htf0]
    have hall1 : ∀ i, i < 5 →
        TestRunRetryable (doFetchTestRunResult env c r.ID (w1.testRunFetches + i)) := by
      intro i hi
      rw [hidx]
      exact Or.inr (hall i hi).2
    have hex := FetchTestRun_exhausts env c r.ID w1 hall1
    have hfr := testPhase_frame env c r w0
    unfold HandleTestRun
    rw [hb]
    simp only []
    refine ⟨?_, by rw [hfr.2.1, hcap0]⟩
    unfold testPhase
    simp only [hs, hex]
    rw [hidx]
    simp [testRunAttemptError, (hall 4 (by omega)).1]
  · intro id w3
    obtain ⟨_, w4, _, hext, _, _, hcase⟩ := FetchTestRun_cases env c id w3
    rcases hcase with ⟨_, hres⟩ | ⟨_, hres⟩ <;> rw [hres] <;> exact hext.captures_eq
  · intro hne
    have hp := println_frame "" w
    rcases buildPhase_cases env c r w with
      ⟨_, hb⟩ | ⟨_, e, w1, hs, hb⟩ | ⟨hurl, w1, w2, err, hs, hf, hb⟩ |
      ⟨_, w1, w2, resp, hs, hf, _, hb⟩ | ⟨_, w1, w2, resp, hs, hf, _, hb⟩
    · exfalso
      apply hne
      unfold HandleTestRun
      rw [hb]
      exact (testPhase_frame env c r w).2.1
    · exfalso
      apply hne
      unfold HandleTestRun
      rw [hb]
      simp only []
      rw [(streamLogs_frame_of env _ _ w1 _ hs).2.1, hp.2.1]
    · refine ⟨hurl, w1, w2, err, hs, hf, ?_, ?_⟩
      · obtain ⟨_, w0, hext, hw2, _⟩ := FetchBuild_error_captured env c _ w1 w2 _ err hf
        unfold HandleTestRun
        rw [hb]
        simp only [eprintln_frame]
        rw [hw2]
        simp only [emit, captures_append]
        rw [hext.captures_eq, (streamLogs_frame_of env _ _ w1 _ hs).2.1, hp.2.1]
        simp [captures]
      · unfold HandleTestRun
        rw [hb]
    · exfalso
      apply hne
      obtain ⟨_, hext, _, _, _⟩ := FetchBuild_ok_terminal env c _ w1 w2 resp hf
      unfold HandleTestRun
      rw [hb]
      simp only [eprintln_frame]
      rw [hext.captures_eq, (streamLogs_frame_of env _ _ w1 _ hs).2.1, hp.2.1]
    · exfalso
      apply hne
      have hc := (buildPhase_continue_frame env c r w _ hb).1
      unfold HandleTestRun
      rw [hb]
      simp only []
      rw [(testPhase_frame env c r _).2.1, hc]

/-- C9 at the scenario of the spec: the run status stays pending for 5 attempts;
HandleTestRun returns an error and nothing is reported to Sentry. -/
theorem handleTestRun_run_status_exhaustion_not_escalated_witness :
    (HandleTestRun plainRun envRunPending demoClient World.init).1 =
      Outcome.returned (some ⟨"unexpected test run status: " ++
        (doFetchTestRunResult envRunPending demoClient "T1" (0 + 4)).1.Status⟩) ∧
    captures (HandleTestRun plainRun envRunPending demoClient World.init).2.trace =
      captures World.init.trace :=
  (handleTestRun_run_status_exhaustion_not_escalated envRunPending demoClient plainRun
    World.init).1 World.init (streamLogs envRunPending "LT" (testBanner World.init)).2
    (by decide) (by decide) (by decide)

/-- C10: the default branch of the build-status switch in HandleTestRun cannot
be reached. Whenever FetchBuild returns a nil error the status it returns is
failure or success; hence whenever HandleTestRun ends the process itself, the
exit status is 0 and the build status was failure. And whenever FetchBuild
returns an error, the guard before sentry.CaptureException holds: the last
thing FetchBuild did was to report that error. -/
theorem build_switch_default_unreachable (env : Env) (c : CodecraftersClient) :
    (∀ (id : String) (w w1 : World) (resp : FetchBuildStatusResponse),
      FetchBuild env c id w = ((resp, none), w1) →
        resp.Status = "failure" ∨ resp.Status = "success") ∧
    (∀ (r : CreateTestRunResponse) (w : World) (code : Int),
      (HandleTestRun r env c w).1 = Outcome.exited code →
        code = 0 ∧ r.PendingBuildLogstreamURL ≠ "" ∧ ∃ w1 w2 resp,
          streamLogs env r.PendingBuildLogstreamURL (println "" w) = (none, w1) ∧
          FetchBuild env c r.PendingBuildID w1 = ((resp, none), w2) ∧
          resp.Status = "failure") ∧
    (∀ (id : String) (w w1 : World) (resp : FetchBuildStatusResponse) (err : GoError),
      FetchBuild env c id w = ((resp, some err), w1) →
        ∃ w0, w1 = emit (Event.captureException err) w0) := by
  refine ⟨?_, ?_, ?_⟩
  · intro id w w1 resp h
    exact (FetchBuild_ok_terminal env c id w w1 resp h).1.symm
  · intro r w code h
    rcases buildPhase_cases env c r w with
      ⟨_, hb⟩ | ⟨_, e, w1, hs, hb⟩ | ⟨_, w1, w2, err, hs, hf, hb⟩ |
      ⟨hurl, w1, w2, resp, hs, hf, hst, hb⟩ | ⟨_, w1, w2, resp, hs, hf, _, hb⟩
    · exfalso
      unfold HandleTestRun at h
      rw [hb] at h
      obtain ⟨err, herr⟩ := (testPhase_frame env c r w).2.2.2.2
      simp only [] at h
      rw [herr] at h
      simp at h
    · exfalso
      unfold HandleTestRun at h
      rw [hb] at h
      simp at h
    · exfalso
      unfold HandleTestRun at h
      rw [hb] at h
      simp at h
    · unfold HandleTestRun at h
      rw [hb] at h
      simp only [Outcome.exited.injEq] at h
      exact ⟨h.symm, hurl, w1, w2, resp, hs, hf, hst⟩
    · exfalso
      unfold HandleTestRun at h
      rw [hb] at h
      obtain ⟨err, herr⟩ := (testPhase_frame env c r (emit (Event.sleep (1 * Second)) w2)).2.2.2.2
      simp only [] at h
      rw [herr] at h
      simp at h
  · intro id w w1 resp err h
    obtain ⟨_, w0, _, hw, _⟩ := FetchBuild_error_captured env c id w w1 resp err h
    exact ⟨w0, hw⟩

/-- C10 at two scenarios: a failed build, after which HandleTestRun exits with
status 0, and a build poll that never sees a terminal status, whose error is
reported. -/
theorem build_switch_default_unreachable_witness :
    ((0 : Int) = 0 ∧ buildRun.PendingBuildLogstreamURL ≠ "" ∧
      ∃ w1 w2 resp,
        streamLogs envBuildFails buildRun.PendingBuildLogstreamURL (println "" World.init)
          = (none, w1) ∧
        FetchBuild envBuildFails demoClient buildRun.PendingBuildID w1 = ((resp, none), w2) ∧
        resp.Status = "failure") ∧
    (∃ w0, (FetchBuild envNeverTerminal demoClient "B1" World.init).2 =
      emit (Event.captureException ⟨"unexpected build status: queued"⟩) w0) :=
  ⟨(build_switch_default_unreachable envBuildFails demoClient).2.1 buildRun World.init 0
      (by decide),
   (build_switch_default_unreachable envNeverTerminal demoClient).2.2 "B1" World.init
      (FetchBuild envNeverTerminal demoClient "B1" World.init).2
      FetchBuildStatusResponse.zero ⟨"unexpected build status: queued"⟩ (by decide)⟩

end Coderbot
